import Mathlib

/-!
Verification of the download engine of the `drive_downloader` repository
(`src/downloader.py`, `src/main.py`, `src/utils.py`, `src/config.py`,
`src/datastructures.py`).

The Python code is shallowly embedded: the filesystem is a finite map from
paths to file sizes (all spec claims under scrutiny are about sizes, names
and control flow, never about byte contents), HTTP traffic is an explicit
environment of responses, and exceptions are an explicit `Except`.
Machine-level concerns (actual sockets, threads, the on-disk byte layout)
are outside the model; the control flow, the header/size arithmetic and the
filesystem-name manipulation are translated line by line from the source.

`os.rename` is modelled with POSIX semantics (an existing destination is
replaced silently), which is the documented behaviour of `os.rename` on the
platforms this script targets.
-/

set_option autoImplicit false

deriving instance DecidableEq for Except

namespace GDD

/-! ## Python-side primitive types -/

/-- The exception classes that can cross the boundaries modelled here,
mirroring the `requests` exception hierarchy plus `IOError`/`OSError`. -/
inductive PyExc where
  | timeout
  | connectionError (msg : String)
  | chunkedEncodingError
  | httpError (status : Nat)
  | osError (msg : String)
  | otherExc (msg : String)
deriving DecidableEq, Repr

/-- `RETRYABLE_EXCEPTIONS` from `downloader.py` lines 19-23:
`Timeout`, `ConnectionError`, `ChunkedEncodingError`. -/
def PyExc.retryable : PyExc → Bool
  | .timeout => true
  | .connectionError _ => true
  | .chunkedEncodingError => true
  | _ => false

/-- Membership in `requests.exceptions.RequestException` (the class caught by
`except requests.exceptions.RequestException`). -/
def PyExc.isRequestExc : PyExc → Bool
  | .timeout => true
  | .connectionError _ => true
  | .chunkedEncodingError => true
  | .httpError _ => true
  | _ => false

/-- Membership in `IOError` (alias of `OSError` in Python 3). -/
def PyExc.isIOError : PyExc → Bool
  | .osError _ => true
  | _ => false

/-- `type(e).__name__` for the modelled exception classes. -/
def PyExc.typeName : PyExc → String
  | .timeout => "Timeout"
  | .connectionError _ => "ConnectionError"
  | .chunkedEncodingError => "ChunkedEncodingError"
  | .httpError _ => "HTTPError"
  | .osError _ => "OSError"
  | .otherExc _ => "Exception"

/-- Python truthiness of an `Optional[int]`: `None` and `0` are falsy
(`if server_total_size and ...`). -/
def truthyN : Option Nat → Bool
  | some n => n ≠ 0
  | none => false

/-! ## Filesystem model

A finite map from absolute path strings to file sizes in bytes.  The engine
only ever inspects existence and `os.path.getsize`, creates/truncates,
appends, removes and renames, so sizes are a faithful abstraction. -/

structure FS where
  files : List (String × Nat)
deriving DecidableEq, Repr

def lookupEntries : List (String × Nat) → String → Option Nat
  | [], _ => none
  | (q, n) :: rest, p => if q = p then some n else lookupEntries rest p

def FS.lookup (fs : FS) (p : String) : Option Nat :=
  lookupEntries fs.files p

/-- `os.path.exists` (the model contains no directories). -/
def FS.hasFile (fs : FS) (p : String) : Bool :=
  (fs.lookup p).isSome

/-- `os.path.getsize` (defined, in the model, as 0 on a missing file; the
engine only calls it on files it has just checked to exist). -/
def FS.getsize (fs : FS) (p : String) : Nat :=
  (fs.lookup p).getD 0

/-- `os.remove` (removing a missing file is a no-op in the model; the engine
guards its removals with existence checks or a swallowed `OSError`). -/
def FS.removeFile (fs : FS) (p : String) : FS :=
  ⟨fs.files.filter (fun e => e.1 ≠ p)⟩

/-- Create-or-truncate-or-overwrite: the path now maps to size `n`. -/
def FS.setFile (fs : FS) (p : String) (n : Nat) : FS :=
  ⟨(p, n) :: (fs.removeFile p).files⟩

/-- `os.rename src dst`, POSIX semantics: the destination, if present, is
replaced silently.  A missing source is never renamed by the engine. -/
def FS.renameFile (fs : FS) (src dst : String) : FS :=
  match fs.lookup src with
  | none => fs
  | some n => (fs.removeFile src).setFile dst n

/-! ## String helpers from `utils.py` -/

/-- Is the first list a leading segment of the second? -/
def listLeads : List Char → List Char → Bool
  | [], _ => true
  | _ :: _, [] => false
  | a :: as, b :: bs => a = b && listLeads as bs

/-- Is `needle` a contiguous sublist of the argument? -/
def listHasInfix (needle : List Char) : List Char → Bool
  | [] => listLeads needle []
  | c :: rest => listLeads needle (c :: rest) || listHasInfix needle rest

/-- Python `needle in hay` on strings. -/
def strContains (hay needle : String) : Bool :=
  listHasInfix needle.toList hay.toList

/-- ASCII lowering of one character (`str.lower`; all header values the
engine lowers are ASCII). -/
def lowerChar (c : Char) : Char :=
  if 'A' ≤ c ∧ c ≤ 'Z' then Char.ofNat (c.toNat + 32) else c

/-- Python `str.lower` restricted to ASCII. -/
def strLower (s : String) : String :=
  ⟨s.toList.map lowerChar⟩

/-- `os.path.basename` on POSIX: the part after the last `/`. -/
def basename (s : String) : String :=
  ⟨(s.toList.reverse.takeWhile (fun c => c ≠ '/')).reverse⟩

/-- Position just after the last `.` usable as an extension separator, per
`os.path.splitext`: the split happens at the last dot only when some
character before it is not a dot. -/
def splitextIdx (cs : List Char) : Option Nat :=
  match ((List.range cs.length).filter
      (fun i => cs.getD i ' ' = '.')).getLast? with
  | none => none
  | some j => if (List.range j).any (fun i => cs.getD i ' ' ≠ '.') then some j else none

/-- `os.path.splitext` (called on basenames only in this code base). -/
def splitext (s : String) : String × String :=
  match splitextIdx s.toList with
  | none => (s, "")
  | some j => (⟨s.toList.take j⟩, ⟨s.toList.drop j⟩)

/-- Characters removed by `re.sub(r'[\\/*?:"<>|]', "", filename)`. -/
def invalidFileChar (c : Char) : Bool :=
  c = '\\' || c = '/' || c = '*' || c = '?' || c = ':' || c = '"' || c = '<' || c = '>' || c = '|'

/-- Python regex `\s` characters (ASCII range, which is all the engine
meets) together with `_`: the class collapsed by `re.sub(r'[\s_]+', '_', ...)`. -/
def wsOrUnderscore (c : Char) : Bool :=
  c = ' ' || c = '\t' || c = '\n' || c = '\r' || c = '\x0b' || c = '\x0c' || c = '_'

/-- Collapse every maximal run of whitespace/underscore into a single `_`. -/
def collapseRuns (l : List Char) : List Char :=
  l.foldr
    (fun c acc =>
      if wsOrUnderscore c then
        match acc with
        | '_' :: _ => acc
        | _ => '_' :: acc
      else c :: acc)
    []

/-- Python `str.strip('_')`. -/
def stripUnderscores (l : List Char) : List Char :=
  ((l.dropWhile (fun c => c = '_')).reverse.dropWhile (fun c => c = '_')).reverse

/-- Python slice `name[:m]` for a possibly negative `m`. -/
def pySlice (name : List Char) (m : Int) : List Char :=
  if 0 ≤ m then name.take m.toNat
  else name.take ((name.length : Int) + m).toNat

/-- `utils.sanitize_filename`. -/
def sanitize_filename (s : String) : String :=
  if s = "" then "unnamed_file"
  else
    let f := basename s
    let f : List Char := f.toList.filter (fun c => ¬ invalidFileChar c)
    let f := stripUnderscores (collapseRuns f)
    let maxLen := 240
    let f :=
      if maxLen < f.length then
        let (name, ext) := splitext (⟨f⟩ : String)
        pySlice name.toList ((maxLen : Int) - (ext.length : Int)) ++ ext.toList
      else f
    if f.isEmpty then "unnamed_file" else ⟨f⟩

/-! ## `config.py` constants (only those the engine reads) -/

def RETRY_ATTEMPTS : Nat := 3
def DOWNLOAD_TO_PART_FILES : Bool := true
def CHECK_EXISTING_SIZE_BEFORE_DOWNLOAD : Bool := true
def DOWNLOAD_FOLDER : String := "downloaded_files"

/-! ## `datastructures.py` -/

structure DownloadTask where
  original_url : String
  file_id : String
  download_url : String
  filename_hint : String
  file_extension : String := ""
  is_export : Bool := false
  export_format : Option String := none
deriving DecidableEq, Repr

structure DownloadResult where
  original_url : String
  success : Bool
  filepath : Option String := none
  message : String := ""
  error : Option PyExc := none
deriving DecidableEq, Repr

/-! ## HTTP response model

A streamed response is reduced to the data the engine reads from it: the
status code, the `Content-Length` header (if present), the number of body
bytes the iterator actually yields before the stream ends, and an optional
exception raised mid-stream (after those bytes were yielded). -/

structure StreamResp where
  status : Nat
  contentLength? : Option Nat := none
  delivered : Nat := 0
  streamErr : Option PyExc := none
deriving DecidableEq, Repr

/-- The response of the initial `GET` in `_perform_download_attempt`,
with the header fields inspected by the interstitial pre-check and the body
text as read by `response.text` (`none` models a read that raises, which the
code swallows and treats as "not a confirmation"). -/
structure GetResp where
  status : Nat
  contentType : String := ""
  hasContentDisposition : Bool := false
  contentLength? : Option Nat := none
  delivered : Nat := 0
  streamErr : Option PyExc := none
  body? : Option String := none
deriving DecidableEq, Repr

def GetResp.toStream (r : GetResp) : StreamResp :=
  { status := r.status, contentLength? := r.contentLength?,
    delivered := r.delivered, streamErr := r.streamErr }

/-- What one call of `_perform_download_attempt` can observe from the
network: the outcome of `session.get` keyed by the `Range` header sent, and
the outcome of `_handle_confirmation_page` should it be invoked (`none`
models both "no confirmation link found" and "the confirmation GET
failed"). -/
structure AttemptEnv where
  get : Option String → Except PyExc GetResp
  confirm : Option StreamResp := none

/-- The head-probe response of `_get_server_file_info`, with
`suggestedFilename?` standing for the already-parsed result of
`utils.get_filename_from_content_disposition` on its headers. -/
structure HeadResp where
  status : Nat
  contentLength? : Option Nat := none
  suggestedFilename? : Option String := none
deriving DecidableEq, Repr

/-- Everything `download_file` can observe from the network: the HEAD
outcome and a per-attempt environment (attempts are numbered from 1). -/
structure DlEnv where
  head : Except PyExc HeadResp
  attempts : Nat → AttemptEnv

/-! ## `_perform_download_attempt` (downloader.py lines 125-240)

The function is translated as a composition of named stages so the claim
proofs can reason per stage. -/

/-- `file_open_mode`: `'wb'` (truncate) or `'ab'` (append). -/
inductive Mode where
  | wb
  | ab
deriving DecidableEq, Repr

/-- Observable footprint of one attempt, recording the decisions the spec
claims are about (the `Range` header sent, the open mode, the running
counter at open time, whether the confirmation negotiator ran, ...). -/
structure AttemptTrace where
  getIssued : Bool := false
  rangeHeader : Option String := none
  initialMode? : Option Mode := none
  openMode? : Option Mode := none
  counterAtStream : Nat := 0
  bytesWritten : Nat := 0
  negotiated : Bool := false
  streamCompleted : Bool := false
  renamedAt : Option Nat := none
  effectiveTotal? : Option Nat := none
  effectiveStatus? : Option Nat := none
deriving DecidableEq, Repr

/-- Lines 134-150: inspect a pre-existing `.part` file and decide the resume
state (`current_downloaded_size`, `file_open_mode`, the `Range` header), or
finish immediately when the partial file is already complete/oversized. -/
inductive ResumeStep where
  | earlyDone (fs : FS) (res : DownloadResult) (cur : Nat)
  | proceed (cur : Nat) (mode : Mode) (range? : Option String)
deriving DecidableEq, Repr

def resumeSetup (fs : FS) (partPath finalPath : String) (total? : Option Nat)
    (origUrl : String) : ResumeStep :=
  if DOWNLOAD_TO_PART_FILES && fs.hasFile partPath then
    let cur := fs.getsize partPath
    if truthyN total? && decide (0 < cur) && decide (cur < total?.getD 0) then
      .proceed cur .ab (some ("bytes=" ++ toString cur ++ "-"))
    else if truthyN total? && decide (total?.getD 0 ≤ cur) then
      .earlyDone (fs.renameFile partPath finalPath)
        { original_url := origUrl, success := true, filepath := some finalPath,
          message := "Success (resumed and completed): " ++ basename finalPath }
        cur
    else
      .proceed 0 .wb none
  else
    .proceed 0 .wb none

/-- Lines 160, 172-175: the header pre-check that makes a response a
confirmation-page candidate, and the body markers that confirm it. -/
def isHtmlCandidate (r : GetResp) : Bool :=
  strContains (strLower r.contentType) "text/html" && !r.hasContentDisposition

def confirmMarkers (t : String) : Bool :=
  strContains t "downloadForm" || strContains t "confirm=" ||
    strContains t "Virus scan warning"

/-- The stream the body loop will consume, together with the possibly-reset
counter/mode/size state. -/
structure NegotOut where
  stream : StreamResp
  cur : Nat
  mode : Mode
  total? : Option Nat
  negotiated : Bool
deriving DecidableEq, Repr

/-- Lines 157-198 up to the Range-acceptance check: interstitial detection,
negotiation, response substitution and resume invalidation. -/
def negotiateStage (resp : GetResp) (confirm? : Option StreamResp)
    (cur : Nat) (mode : Mode) (total? : Option Nat) (origUrl : String) :
    Except DownloadResult NegotOut :=
  if isHtmlCandidate resp then
    let text := resp.body?.getD ""
    if text ≠ "" && confirmMarkers text then
      match confirm? with
      | none =>
        .error { original_url := origUrl, success := false,
                 message := "Failed: Confirmation bypass failed after GET." }
      | some cr =>
        let total1 := match cr.contentLength? with
          | some v => some v
          | none => total?
        if decide (0 < cur) && decide (cr.status = 200) then
          .ok { stream := cr, cur := 0, mode := .wb, total? := total1, negotiated := true }
        else
          .ok { stream := cr, cur := cur, mode := mode, total? := total1, negotiated := true }
    else
      .ok { stream := resp.toStream, cur := cur, mode := mode, total? := total?,
            negotiated := false }
  else
    .ok { stream := resp.toStream, cur := cur, mode := mode, total? := total?,
          negotiated := false }

/-- Lines 192-196: when no confirmation happened, a 200 answer to a resumed
request restarts the local file from zero. -/
def rangeCheck (n : NegotOut) : NegotOut :=
  if !n.negotiated && decide (0 < n.cur) && decide (n.stream.status = 200) then
    { n with cur := 0, mode := .wb }
  else n

/-- Lines 200-205: refine the expected total size from the `Content-Length`
of the response about to be streamed (for a 206 the header carries the
remaining size). -/
def refineTotal (n : NegotOut) : Option Nat :=
  match n.stream.contentLength? with
  | some cl =>
    let eff := if n.stream.status = 206 then cl + n.cur else cl
    if 0 < eff then some eff else n.total?
  | none => n.total?

/-- Lines 212-216: `open(write_filepath, mode)` followed by the chunk loop
writing every delivered byte. -/
def streamWrite (fs : FS) (writePath : String) (mode : Mode) (delivered : Nat) : FS :=
  let pre := match mode with
    | .wb => 0
    | .ab => fs.getsize writePath
  fs.setFile writePath (pre + delivered)

structure AttemptOut where
  result : Except PyExc DownloadResult
  fs : FS
  trace : AttemptTrace
deriving Repr

/-- Lines 200-230: refine the size, open, stream, verify, rename.  Invoked
once the effective response `n` is known. -/
def streamStage (task : DownloadTask) (finalPath partPath : String)
    (range? : Option String) (fs : FS) (n : NegotOut) : AttemptOut :=
  let total2 := refineTotal n
  let writePath := if DOWNLOAD_TO_PART_FILES then partPath else finalPath
  let fs1 := streamWrite fs writePath n.mode n.stream.delivered
  let cur2 := n.cur + n.stream.delivered
  let baseTrace : AttemptTrace :=
    { getIssued := true, rangeHeader := range?, negotiated := n.negotiated,
      openMode? := some n.mode, counterAtStream := n.cur, bytesWritten := cur2,
      effectiveTotal? := total2, effectiveStatus? := some n.stream.status }
  match n.stream.streamErr with
  | some e =>
    -- the `with open` block propagates the exception; `except
    -- RequestException: raise` re-raises it, `except IOError` converts it.
    if e.isIOError then
      let res : DownloadResult :=
        { original_url := task.original_url, success := false,
          message := "Failed: File I/O error - " ++ e.typeName, error := some e }
      { result := .ok res, fs := fs1, trace := baseTrace }
    else
      { result := .error e, fs := fs1, trace := baseTrace }
  | none =>
    if truthyN total2 && decide (cur2 < total2.getD 0) then
      { result := .error (.connectionError "Download stream ended prematurely."),
        fs := fs1, trace := { baseTrace with streamCompleted := true } }
    else
      let fs2 :=
        if DOWNLOAD_TO_PART_FILES && fs1.hasFile writePath then
          fs1.renameFile writePath finalPath
        else fs1
      let res : DownloadResult :=
        { original_url := task.original_url, success := true,
          filepath := some finalPath,
          message := "Success: " ++ basename finalPath }
      { result := .ok res, fs := fs2,
        trace := { baseTrace with streamCompleted := true, renamedAt := some cur2 } }

/-- `_perform_download_attempt` for one attempt (the tenacity decorator is
modelled separately).  `total?` is the `server_total_size` argument;
`initial_response_headers` is never read by the Python body and is omitted. -/
def performDownloadAttempt (task : DownloadTask) (env : AttemptEnv)
    (finalPath partPath : String) (total? : Option Nat) (fs : FS) : AttemptOut :=
  match resumeSetup fs partPath finalPath total? task.original_url with
  | .earlyDone fs' res cur =>
    { result := .ok res, fs := fs',
      trace := { effectiveTotal? := total?, bytesWritten := cur,
                 renamedAt := some cur } }
  | .proceed cur mode range? =>
    match env.get range? with
    | .error e =>
      -- `except requests.exceptions.RequestException as e: raise`
      { result := .error e, fs := fs,
        trace := { getIssued := true, rangeHeader := range?,
                   initialMode? := some mode } }
    | .ok resp =>
      if 400 ≤ resp.status then
        -- `response.raise_for_status()` raises `HTTPError`, re-raised.
        { result := .error (.httpError resp.status), fs := fs,
          trace := { getIssued := true, rangeHeader := range?,
                     initialMode? := some mode } }
      else
        match negotiateStage resp env.confirm cur mode total? task.original_url with
        | .error res =>
          { result := .ok res, fs := fs,
            trace := { getIssued := true, rangeHeader := range?,
                       initialMode? := some mode, negotiated := true } }
        | .ok n0 =>
          let out := streamStage task finalPath partPath range? fs (rangeCheck n0)
          { out with trace := { out.trace with initialMode? := some mode } }

/-! ## The tenacity retry decorator (downloader.py lines 116-124)

`retry_if_exception_type(RETRYABLE_EXCEPTIONS)` with
`stop_after_attempt(config.RETRY_ATTEMPTS)`: a retryable exception triggers
a re-invocation until the attempt cap, a non-retryable one propagates at
once, and exhausting the cap raises `RetryError` around the last
exception.  The filesystem mutated by a failed attempt is what the next
attempt sees. -/

inductive RetryOut where
  | done (r : DownloadResult)
  | exhausted (last : PyExc)
  | raised (e : PyExc)
deriving DecidableEq, Repr

structure RunOut where
  out : RetryOut
  fs : FS
  attemptsMade : Nat
  lastTrace : AttemptTrace
deriving Repr

def attemptLoop (task : DownloadTask) (envs : Nat → AttemptEnv)
    (finalPath partPath : String) (total? : Option Nat) :
    Nat → Nat → FS → RunOut
  | 0, i, fs =>
    -- unreachable: the fuel below is the attempt cap itself
    { out := .exhausted (.otherExc "fuel"), fs := fs, attemptsMade := i - 1,
      lastTrace := {} }
  | fuel + 1, i, fs =>
    let a := performDownloadAttempt task (envs i) finalPath partPath total? fs
    match a.result with
    | .ok r => { out := .done r, fs := a.fs, attemptsMade := i, lastTrace := a.trace }
    | .error e =>
      if e.retryable then
        if i < RETRY_ATTEMPTS then
          attemptLoop task envs finalPath partPath total? fuel (i + 1) a.fs
        else
          { out := .exhausted e, fs := a.fs, attemptsMade := i, lastTrace := a.trace }
      else
        { out := .raised e, fs := a.fs, attemptsMade := i, lastTrace := a.trace }

def runAttempts (task : DownloadTask) (envs : Nat → AttemptEnv)
    (finalPath partPath : String) (total? : Option Nat) (fs : FS) : RunOut :=
  attemptLoop task envs finalPath partPath total? RETRY_ATTEMPTS 1 fs

/-- `download_file` step 6 (lines 301-312): run the decorated attempt and
convert `RetryError` / any other escaped exception into a failed result. -/
def executeWithRetries (task : DownloadTask) (envs : Nat → AttemptEnv)
    (finalPath partPath : String) (total? : Option Nat) (fs : FS) :
    DownloadResult × FS × Nat :=
  let run := runAttempts task envs finalPath partPath total? fs
  match run.out with
  | .done r => (r, run.fs, run.attemptsMade)
  | .exhausted e =>
    ({ original_url := task.original_url, success := false,
       message := "Failed after retries: " ++ e.typeName, error := some e },
     run.fs, run.attemptsMade)
  | .raised e =>
    ({ original_url := task.original_url, success := false,
       message := "Failed: Unexpected orchestration error - " ++ e.typeName,
       error := some e },
     run.fs, run.attemptsMade)

/-! ## `_get_server_file_info`, filename resolution, `download_file` -/

/-- `_get_server_file_info` (lines 30-46): the size/filename pair, with
`none` exactly when the HEAD request raised (including `raise_for_status`).
A missing `Content-Length` on a successful HEAD becomes size `0` because of
`int(head_response.headers.get('Content-Length', 0))`. -/
def getServerFileInfo (headOut : Except PyExc HeadResp) : Option Nat × Option String :=
  match headOut with
  | .error _ => (none, none)
  | .ok h =>
    if 400 ≤ h.status then (none, none)
    else (some (h.contentLength?.getD 0), h.suggestedFilename?)

/-- `os.path.join` for a folder without trailing slash and a relative name,
the only shape this code produces. -/
def pathJoin (folder name : String) : String :=
  folder ++ "/" ++ name

/-- `download_file` step 1 (lines 248-256): the initial proposed filename. -/
def initialProposed (task : DownloadTask) (suggested? : Option String) : String :=
  let n :=
    match suggested? with
    | some s =>
      if task.file_extension ≠ "" && decide ((splitext s).2 = "") then
        s ++ task.file_extension
      else s
    | none =>
      let base := sanitize_filename task.filename_hint
      if task.file_extension ≠ "" then base ++ task.file_extension
      else base ++ ".gdownload"
  sanitize_filename n

/-- One candidate of the uniqueness loop: `f"{name_part}_{counter}{ext_part}"`. -/
def candidateName (np ext : String) (k : Nat) : String :=
  np ++ "_" ++ toString k ++ ext

/-- The `while os.path.exists(...)` loop of
`_determine_actual_final_filename_and_path` (lines 62-71), with fuel one
larger than the number of filesystem entries — enough for the loop to find
a free name, so the fuel-exhaustion branch is unreachable. -/
def determineGo (folder np ext : String) (fs : FS) : Nat → Nat → String
  | 0, k => candidateName np ext k
  | fuel + 1, k =>
    let name := candidateName np ext k
    if fs.hasFile (pathJoin folder name) then determineGo folder np ext fs fuel (k + 1)
    else name

/-- `_determine_actual_final_filename_and_path` (lines 48-76); the model has
no directories, so `os.path.isdir` is constantly false. -/
def determineActualFinalFilename (folder initialName : String) (fs : FS) :
    String × String :=
  let name :=
    if fs.hasFile (pathJoin folder initialName) then
      let np := (splitext initialName).1
      let ext := (splitext initialName).2
      determineGo folder np ext fs (fs.files.length + 1) 1
    else initialName
  (name, pathJoin folder name)

/-- The outcome of `download_file`, with the observable decisions the
claims are about. -/
structure DlOut where
  result : DownloadResult
  fs : FS
  attemptsEntered : Bool
  attemptsMade : Nat
  initialPath : String
  targetPath : String
deriving Repr

/-- `download_file` (lines 242-312). -/
def downloadFile (task : DownloadTask) (env : DlEnv) (folder : String) (fs : FS) :
    DlOut :=
  let info := getServerFileInfo env.head
  let total? := info.1
  let iname := initialProposed task info.2
  let ipath := pathJoin folder iname
  -- step 3 (lines 262-276): skip checks against the initial proposed path
  let skip? : Option DownloadResult :=
    if CHECK_EXISTING_SIZE_BEFORE_DOWNLOAD && fs.hasFile ipath then
      match total? with
      | some n =>
        if 0 < n then
          if fs.getsize ipath = n then
            some { original_url := task.original_url, success := true,
                   filepath := some ipath,
                   message := "Skipped (exists, size match): " ++ iname }
          else none
        else
          if fs.getsize ipath = 0 then
            some { original_url := task.original_url, success := true,
                   filepath := some ipath,
                   message := "Skipped (0 byte file exists, server size 0/unknown): " ++ iname }
          else none
      | none =>
        if fs.getsize ipath = 0 then
          some { original_url := task.original_url, success := true,
                 filepath := some ipath,
                 message := "Skipped (0 byte file exists, server size 0/unknown): " ++ iname }
        else none
    else none
  match skip? with
  | some r =>
    { result := r, fs := fs, attemptsEntered := false, attemptsMade := 0,
      initialPath := ipath, targetPath := ipath }
  | none =>
    -- step 4 (lines 278-281)
    let apath := (determineActualFinalFilename folder iname fs).2
    let ppath := apath ++ ".part"
    -- step 5 (lines 286-298): remove a mismatched file we are about to overwrite
    let mismatchRemoval : Bool :=
      decide (apath = ipath) && fs.hasFile ipath &&
        CHECK_EXISTING_SIZE_BEFORE_DOWNLOAD &&
        (match total? with
         | some t =>
           (decide (0 < t) && decide (fs.getsize ipath ≠ t)) ||
             (decide (t = 0) && decide (fs.getsize ipath ≠ 0))
         | none => false)
    let fs1 := if mismatchRemoval then (fs.removeFile ppath).removeFile ipath else fs
    -- step 6 (lines 301-312)
    let r := executeWithRetries task env.attempts apath ppath total? fs1
    { result := r.1, fs := r.2.1, attemptsEntered := true, attemptsMade := r.2.2,
      initialPath := ipath, targetPath := apath }

/-! ## The orchestrator collection loop (main.py lines 166-189)

Each submitted task yields one future; `as_completed` hands every future
back exactly once and `future.result()` re-raises whatever escaped
`download_file`, which the loop converts into a failed result.  Completion
order is a permutation of submission order; the model collects in
submission order, which fixes one representative of that permutation. -/

def collectResults (tasks : List DownloadTask)
    (exec : DownloadTask → Except PyExc DownloadResult) : List DownloadResult :=
  tasks.map fun t =>
    match exec t with
    | .ok r => r
    | .error e =>
      { original_url := t.original_url, success := false,
        message := "Unhandled exception: " ++ e.typeName }

/-! ## Filesystem lemmas -/

theorem lookupEntries_filter_ne (l : List (String × Nat)) (p q : String) (h : q ≠ p) :
    lookupEntries (l.filter (fun e => e.1 ≠ p)) q = lookupEntries l q := by
  induction l with
  | nil => rfl
  | cons e rest ih =>
    obtain ⟨k, v⟩ := e
    by_cases hkp : k = p
    · have hkq : ¬ (k = q) := fun hq => h (by rw [← hq, hkp])
      have hfil : List.filter (fun e => decide (e.1 ≠ p)) ((k, v) :: rest)
          = List.filter (fun e => decide (e.1 ≠ p)) rest := by
        simp [List.filter_cons, hkp]
      rw [hfil, ih]
      simp [lookupEntries, hkq]
    · have hfil : List.filter (fun e => decide (e.1 ≠ p)) ((k, v) :: rest)
          = (k, v) :: List.filter (fun e => decide (e.1 ≠ p)) rest := by
        simp [List.filter_cons, hkp]
      rw [hfil]
      by_cases hkq : k = q
      · simp [lookupEntries, hkq]
      · simp only [lookupEntries, hkq, if_false]
        simpa using ih

theorem lookup_removeFile_ne (fs : FS) (p q : String) (h : q ≠ p) :
    (fs.removeFile p).lookup q = fs.lookup q := by
  simpa [FS.removeFile, FS.lookup] using lookupEntries_filter_ne fs.files p q h

theorem lookup_setFile_self (fs : FS) (p : String) (n : Nat) :
    (fs.setFile p n).lookup p = some n := by
  simp [FS.setFile, FS.lookup, lookupEntries]

theorem lookup_setFile_ne (fs : FS) (p q : String) (n : Nat) (h : q ≠ p) :
    (fs.setFile p n).lookup q = fs.lookup q := by
  have hne : ¬ (p = q) := fun hpq => h hpq.symm
  show lookupEntries ((p, n) :: (fs.removeFile p).files) q = fs.lookup q
  simp only [lookupEntries, hne, if_false]
  exact lookup_removeFile_ne fs p q h

theorem lookup_renameFile_ne (fs : FS) (src dst q : String)
    (h1 : q ≠ src) (h2 : q ≠ dst) :
    (fs.renameFile src dst).lookup q = fs.lookup q := by
  unfold FS.renameFile
  cases hsrc : fs.lookup src with
  | none => rfl
  | some n => rw [lookup_setFile_ne _ _ _ _ h2, lookup_removeFile_ne _ _ _ h1]

theorem getsize_renameFile_dst (fs : FS) (src dst : String)
    (h : fs.hasFile src = true) :
    (fs.renameFile src dst).getsize dst = fs.getsize src := by
  unfold FS.renameFile
  cases hsrc : fs.lookup src with
  | none => simp [FS.hasFile, hsrc] at h
  | some n => simp [FS.getsize, lookup_setFile_self, hsrc]

theorem getsize_setFile_self (fs : FS) (p : String) (n : Nat) :
    (fs.setFile p n).getsize p = n := by
  simp [FS.getsize, lookup_setFile_self]

theorem hasFile_setFile_self (fs : FS) (p : String) (n : Nat) :
    (fs.setFile p n).hasFile p = true := by
  simp [FS.hasFile, lookup_setFile_self]

/-! ## Stage characterization lemmas -/

theorem resumeSetup_earlyDone (fs : FS) (pp fp : String) (t? : Option Nat) (u : String)
    (fs' : FS) (res : DownloadResult) (cur : Nat)
    (h : resumeSetup fs pp fp t? u = .earlyDone fs' res cur) :
    fs.hasFile pp = true ∧ cur = fs.getsize pp ∧ truthyN t? = true ∧
      t?.getD 0 ≤ cur ∧ fs' = fs.renameFile pp fp ∧ res.success = true := by
  simp only [resumeSetup] at h
  split at h
  next hcond =>
    split at h
    next => cases h
    next =>
      split at h
      next hdone =>
        injection h with h1 h2 h3
        subst h1; subst h2; subst h3
        simp only [DOWNLOAD_TO_PART_FILES, Bool.true_and] at hcond
        simp only [Bool.and_eq_true, decide_eq_true_eq] at hdone
        exact ⟨hcond, rfl, hdone.1, hdone.2, rfl, rfl⟩
      next => cases h
  next => cases h

theorem resumeSetup_proceed (fs : FS) (pp fp : String) (t? : Option Nat) (u : String)
    (cur : Nat) (mode : Mode) (r? : Option String)
    (h : resumeSetup fs pp fp t? u = .proceed cur mode r?) :
    (mode = .ab ∧ 0 < cur ∧ cur = fs.getsize pp ∧ truthyN t? = true ∧
       cur < t?.getD 0 ∧ r? = some ("bytes=" ++ toString cur ++ "-")) ∨
    (mode = .wb ∧ cur = 0 ∧ r? = none) := by
  simp only [resumeSetup] at h
  split at h
  next hcond =>
    split at h
    next hres =>
      injection h with h1 h2 h3
      subst h1; subst h2; subst h3
      simp only [Bool.and_eq_true, decide_eq_true_eq] at hres
      exact Or.inl ⟨rfl, hres.1.2, rfl, hres.1.1, hres.2, rfl⟩
    next =>
      split at h
      next => cases h
      next =>
        injection h with h1 h2 h3
        subst h1; subst h2; subst h3
        exact Or.inr ⟨rfl, rfl, rfl⟩
  next =>
    injection h with h1 h2 h3
    subst h1; subst h2; subst h3
    exact Or.inr ⟨rfl, rfl, rfl⟩

theorem negotiateStage_shape (resp : GetResp) (c? : Option StreamResp)
    (cur : Nat) (mode : Mode) (t? : Option Nat) (u : String) (n0 : NegotOut)
    (h : negotiateStage resp c? cur mode t? u = .ok n0) :
    (n0.cur = cur ∧ n0.mode = mode) ∨ (n0.cur = 0 ∧ n0.mode = .wb) := by
  simp only [negotiateStage] at h
  split at h
  · split at h
    · split at h
      · cases h
      · split at h
        · injection h with h1
          subst h1
          exact Or.inr ⟨rfl, rfl⟩
        · injection h with h1
          subst h1
          exact Or.inl ⟨rfl, rfl⟩
    · injection h with h1
      subst h1
      exact Or.inl ⟨rfl, rfl⟩
  · injection h with h1
    subst h1
    exact Or.inl ⟨rfl, rfl⟩

theorem rangeCheck_shape (n : NegotOut) :
    ((rangeCheck n).cur = n.cur ∧ (rangeCheck n).mode = n.mode) ∨
      ((rangeCheck n).cur = 0 ∧ (rangeCheck n).mode = .wb) := by
  unfold rangeCheck
  split
  · exact Or.inr ⟨rfl, rfl⟩
  · exact Or.inl ⟨rfl, rfl⟩

/-- The counter/mode invariant every stream stage call satisfies: in append
mode the counter equals the current partial-file size, in truncate mode it
is zero. -/
def CurInv (n : NegotOut) (fs : FS) (pp : String) : Prop :=
  (n.mode = .ab → n.cur = fs.getsize pp) ∧ (n.mode = .wb → n.cur = 0)

theorem streamStage_ok_success (task : DownloadTask) (fp pp : String)
    (r? : Option String) (fs : FS) (n : NegotOut) (res : DownloadResult)
    (h : (streamStage task fp pp r? fs n).result = .ok res)
    (hs : res.success = true)
    (hinv : CurInv n fs pp) :
    (streamStage task fp pp r? fs n).fs.getsize fp = n.cur + n.stream.delivered ∧
    (streamStage task fp pp r? fs n).trace.bytesWritten = n.cur + n.stream.delivered ∧
    (streamStage task fp pp r? fs n).trace.renamedAt = some (n.cur + n.stream.delivered) ∧
    (streamStage task fp pp r? fs n).trace.effectiveTotal? = refineTotal n ∧
    (∀ m, refineTotal n = some m → 0 < m → m ≤ n.cur + n.stream.delivered) := by
  have hpre : (streamWrite fs pp n.mode n.stream.delivered).getsize pp
      = n.cur + n.stream.delivered := by
    unfold streamWrite
    rw [getsize_setFile_self]
    cases hmode : n.mode with
    | wb => simp [hinv.2 hmode]
    | ab => simp [hinv.1 hmode]
  have hhas : (streamWrite fs pp n.mode n.stream.delivered).hasFile pp = true := by
    unfold streamWrite
    exact hasFile_setFile_self _ _ _
  simp only [streamStage, DOWNLOAD_TO_PART_FILES, if_true] at h ⊢
  split at h
  next e heq =>
    split at h
    · injection h with h1
      rw [← h1] at hs
      cases hs
    · cases h
  next heq =>
    split at h
    next hshort => cases h
    next hshort =>
      rw [Bool.not_eq_true] at hshort
      simp only [hshort, Bool.false_eq_true, if_false]
      refine ⟨?_, trivial, trivial, trivial, ?_⟩
      · simp only [Bool.true_and, hhas, if_true]
        rw [getsize_renameFile_dst _ _ _ hhas, hpre]
      · intro m hm hmpos
        by_contra hlt
        push_neg at hlt
        have : (truthyN (refineTotal n) &&
            decide (n.cur + n.stream.delivered < (refineTotal n).getD 0)) = true := by
          rw [hm]
          simp only [truthyN, Option.getD_some, Bool.and_eq_true, decide_eq_true_eq, ne_eq]
          exact ⟨by omega, by omega⟩
        rw [hshort] at this
        cases this

/-- A confirmation-bypass failure produces a failed result. -/
theorem negotiateStage_error (resp : GetResp) (c? : Option StreamResp)
    (cur : Nat) (mode : Mode) (t? : Option Nat) (u : String) (r : DownloadResult)
    (h : negotiateStage resp c? cur mode t? u = .error r) :
    r.success = false := by
  simp only [negotiateStage] at h
  split at h
  · split at h
    · split at h
      · injection h with h1
        rw [← h1]
      · split at h <;> cases h
    · cases h
  · cases h

/-- Master success lemma for one attempt: a success result implies the final
file carries exactly the bytes the attempt counted, the `.part`-to-final
rename happened at that byte count, and the byte count passed verification
against the effective expected size. -/
theorem attempt_ok_success (task : DownloadTask) (env : AttemptEnv)
    (fp pp : String) (t? : Option Nat) (fs : FS) (res : DownloadResult)
    (h : (performDownloadAttempt task env fp pp t? fs).result = .ok res)
    (hs : res.success = true) :
    (performDownloadAttempt task env fp pp t? fs).fs.getsize fp
        = (performDownloadAttempt task env fp pp t? fs).trace.bytesWritten ∧
    (performDownloadAttempt task env fp pp t? fs).trace.renamedAt
        = some ((performDownloadAttempt task env fp pp t? fs).trace.bytesWritten) ∧
    (∀ m, (performDownloadAttempt task env fp pp t? fs).trace.effectiveTotal? = some m →
       0 < m → m ≤ (performDownloadAttempt task env fp pp t? fs).trace.bytesWritten) := by
  simp only [performDownloadAttempt] at h ⊢
  split at h
  next fs' res' cur heq1 =>
    injection h with h1
    subst h1
    obtain ⟨hhas, hcur, htru, hle, hfs, hsucc⟩ :=
      resumeSetup_earlyDone fs pp fp t? task.original_url fs' res' cur heq1
    refine ⟨?_, rfl, ?_⟩
    · show fs'.getsize fp = cur
      rw [hfs, getsize_renameFile_dst _ _ _ hhas, hcur]
    · intro m hm hmpos
      have hm' : t? = some m := hm
      rw [hm'] at hle
      show m ≤ cur
      simpa using hle
  next cur mode r? heq1 =>
    split at h
    next e heq2 => simp at h
    next resp heq2 =>
      split at h
      next => simp at h
      next hstatus =>
        split at h
        next res'' heq3 =>
          injection h with h1
          subst h1
          rw [negotiateStage_error resp env.confirm cur mode t? task.original_url
            res'' heq3] at hs
          cases hs
        next n0 heq3 =>
          simp only [if_neg hstatus]
          have h1 := resumeSetup_proceed fs pp fp t? task.original_url cur mode r? heq1
          have h2 := negotiateStage_shape resp env.confirm cur mode t?
            task.original_url n0 heq3
          have h3 := rangeCheck_shape n0
          have hinv : CurInv (rangeCheck n0) fs pp := by
            constructor
            · intro hab
              rcases h3 with ⟨hc1, hm1⟩ | ⟨hc1, hm1⟩
              · rw [hm1] at hab
                rcases h2 with ⟨hc0, hm0⟩ | ⟨hc0, hm0⟩
                · rw [hm0] at hab
                  rcases h1 with ⟨_, _, hcur, _⟩ | ⟨hwb, _, _⟩
                  · rw [hc1, hc0, hcur]
                  · rw [hwb] at hab; cases hab
                · rw [hm0] at hab; cases hab
              · rw [hm1] at hab; cases hab
            · intro hwb
              rcases h3 with ⟨hc1, hm1⟩ | ⟨hc1, hm1⟩
              · rw [hm1] at hwb
                rcases h2 with ⟨hc0, hm0⟩ | ⟨hc0, hm0⟩
                · rw [hm0] at hwb
                  rcases h1 with ⟨hab, _, _, _⟩ | ⟨_, hcur, _⟩
                  · rw [hab] at hwb; cases hwb
                  · rw [hc1, hc0, hcur]
                · rw [hc1, hc0]
              · rw [hc1]
          have hres : (streamStage task fp pp r? fs (rangeCheck n0)).result
              = .ok res := h
          obtain ⟨S1, S2, S3, S4, S5⟩ :=
            streamStage_ok_success task fp pp r? fs (rangeCheck n0) res hres hs hinv
          refine ⟨?_, ?_, ?_⟩
          · show (streamStage task fp pp r? fs (rangeCheck n0)).fs.getsize fp
              = (streamStage task fp pp r? fs (rangeCheck n0)).trace.bytesWritten
            rw [S1, S2]
          · show (streamStage task fp pp r? fs (rangeCheck n0)).trace.renamedAt
              = some ((streamStage task fp pp r? fs (rangeCheck n0)).trace.bytesWritten)
            rw [S3, S2]
          · intro m hm hmpos
            have hm' : (streamStage task fp pp r? fs (rangeCheck n0)).trace.effectiveTotal?
                = some m := hm
            rw [S4] at hm'
            show m ≤ (streamStage task fp pp r? fs (rangeCheck n0)).trace.bytesWritten
            rw [S2]
            exact S5 m hm' hmpos

/-- The trace fields a stream stage always reports, whatever the branch. -/
theorem streamStage_trace_fields (task : DownloadTask) (fp pp : String)
    (r? : Option String) (fs : FS) (n : NegotOut) :
    (streamStage task fp pp r? fs n).trace.rangeHeader = r? ∧
    (streamStage task fp pp r? fs n).trace.negotiated = n.negotiated ∧
    (streamStage task fp pp r? fs n).trace.openMode? = some n.mode ∧
    (streamStage task fp pp r? fs n).trace.counterAtStream = n.cur ∧
    (streamStage task fp pp r? fs n).trace.effectiveStatus? = some n.stream.status ∧
    (streamStage task fp pp r? fs n).trace.getIssued = true ∧
    (streamStage task fp pp r? fs n).trace.bytesWritten = n.cur + n.stream.delivered ∧
    (streamStage task fp pp r? fs n).trace.effectiveTotal? = refineTotal n := by
  simp only [streamStage]
  split <;> split <;>
    exact ⟨rfl, rfl, rfl, rfl, rfl, rfl, rfl, rfl⟩

/-- A completed stream whose byte count is short of a known positive
effective size yields the retryable `ConnectionError`. -/
theorem streamStage_short (task : DownloadTask) (fp pp : String)
    (r? : Option String) (fs : FS) (n : NegotOut) (k : Nat)
    (hsc : (streamStage task fp pp r? fs n).trace.streamCompleted = true)
    (ht : (streamStage task fp pp r? fs n).trace.effectiveTotal? = some k)
    (hk : 0 < k)
    (hlt : (streamStage task fp pp r? fs n).trace.bytesWritten < k) :
    (streamStage task fp pp r? fs n).result =
      .error (.connectionError "Download stream ended prematurely.") := by
  obtain ⟨-, -, -, -, -, -, hB, hT⟩ := streamStage_trace_fields task fp pp r? fs n
  rw [hT] at ht
  rw [hB] at hlt
  simp only [streamStage] at hsc ⊢
  split at hsc
  next e heq => split at hsc <;> cases hsc
  next heq =>
    split at hsc
    next hshort =>
      simp only [hshort]
      rfl
    next hshort =>
      exfalso
      apply hshort
      rw [ht]
      simp only [truthyN, Option.getD_some, Bool.and_eq_true, decide_eq_true_eq, ne_eq]
      exact ⟨by omega, by omega⟩

/-- The stream stage touches only the partial path and the final path. -/
theorem streamStage_preserves (task : DownloadTask) (fp pp : String)
    (r? : Option String) (fs : FS) (n : NegotOut) (q : String)
    (h1 : q ≠ fp) (h2 : q ≠ pp) :
    (streamStage task fp pp r? fs n).fs.lookup q = fs.lookup q := by
  have hw : (streamWrite fs pp n.mode n.stream.delivered).lookup q = fs.lookup q := by
    unfold streamWrite
    exact lookup_setFile_ne _ _ _ _ h2
  simp only [streamStage, DOWNLOAD_TO_PART_FILES, if_true, Bool.true_and]
  split
  next e heq => split <;> exact hw
  next heq =>
    split
    next => exact hw
    next =>
      split
      next => rw [lookup_renameFile_ne _ _ _ _ h2 h1, hw]
      next => exact hw

/-- One attempt touches only the partial path and the final path. -/
theorem attempt_preserves (task : DownloadTask) (env : AttemptEnv)
    (fp pp : String) (t? : Option Nat) (fs : FS) (q : String)
    (h1 : q ≠ fp) (h2 : q ≠ pp) :
    (performDownloadAttempt task env fp pp t? fs).fs.lookup q = fs.lookup q := by
  simp only [performDownloadAttempt]
  split
  next fs' res' cur heq =>
    obtain ⟨hhas, hcur, htru, hle, hfs, hsucc⟩ :=
      resumeSetup_earlyDone fs pp fp t? task.original_url fs' res' cur heq
    show fs'.lookup q = fs.lookup q
    rw [hfs]
    exact lookup_renameFile_ne _ _ _ _ h2 h1
  next cur mode r? heq =>
    split
    next => rfl
    next resp heq2 =>
      split
      next => rfl
      next =>
        split
        next => rfl
        next n0 heq3 =>
          show (streamStage task fp pp r? fs (rangeCheck n0)).fs.lookup q = fs.lookup q
          exact streamStage_preserves task fp pp r? fs (rangeCheck n0) q h1 h2

theorem rangeCheck_fields (n : NegotOut) :
    (rangeCheck n).negotiated = n.negotiated ∧ (rangeCheck n).stream = n.stream ∧
      (rangeCheck n).total? = n.total? := by
  unfold rangeCheck
  split <;> exact ⟨rfl, rfl, rfl⟩

theorem rangeCheck_cases (n : NegotOut) :
    (0 < n.cur ∧ n.negotiated = false ∧ n.stream.status = 200 ∧
       rangeCheck n = { n with cur := 0, mode := .wb }) ∨
    (rangeCheck n = n ∧
       (n.negotiated = true ∨ n.cur = 0 ∨ n.stream.status ≠ 200)) := by
  unfold rangeCheck
  split
  next hc =>
    simp only [Bool.and_eq_true, Bool.not_eq_true', decide_eq_true_eq] at hc
    exact Or.inl ⟨hc.1.2, hc.1.1, hc.2, rfl⟩
  next hc =>
    refine Or.inr ⟨rfl, ?_⟩
    by_cases hneg : n.negotiated = true
    · exact Or.inl hneg
    · by_cases hcur : n.cur = 0
      · exact Or.inr (Or.inl hcur)
      · refine Or.inr (Or.inr fun h200 => ?_)
        apply hc
        rw [Bool.not_eq_true] at hneg
        simp only [hneg, Bool.not_false, Bool.true_and, Bool.and_eq_true,
          decide_eq_true_eq]
        exact ⟨by omega, h200⟩

theorem negotiateStage_ok_cases (resp : GetResp) (c? : Option StreamResp)
    (cur : Nat) (mode : Mode) (t? : Option Nat) (u : String) (n0 : NegotOut)
    (h : negotiateStage resp c? cur mode t? u = .ok n0) :
    (n0.stream = resp.toStream ∧ n0.cur = cur ∧ n0.mode = mode ∧
       n0.negotiated = false) ∨
    (∃ cr, c? = some cr ∧ n0.stream = cr ∧ n0.negotiated = true ∧
       ((n0.cur = 0 ∧ n0.mode = .wb) ∨
        (n0.cur = cur ∧ n0.mode = mode ∧ ¬ (0 < cur ∧ cr.status = 200)))) := by
  simp only [negotiateStage] at h
  split at h
  · split at h
    · split at h
      · cases h
      next cr =>
        split at h
        next hres =>
          injection h with h1
          subst h1
          exact Or.inr ⟨cr, rfl, rfl, rfl, Or.inl ⟨rfl, rfl⟩⟩
        next hres =>
          injection h with h1
          subst h1
          refine Or.inr ⟨cr, rfl, rfl, rfl, Or.inr ⟨rfl, rfl, fun hcon => ?_⟩⟩
          apply hres
          simp only [Bool.and_eq_true, decide_eq_true_eq]
          exact hcon
    · injection h with h1
      subst h1
      exact Or.inl ⟨rfl, rfl, rfl, rfl⟩
  · injection h with h1
    subst h1
    exact Or.inl ⟨rfl, rfl, rfl, rfl⟩

/-- The header-candidate and body-marker conditions hold whenever the
negotiator was invoked and failed. -/
theorem negotiateStage_error_cond (resp : GetResp) (c? : Option StreamResp)
    (cur : Nat) (mode : Mode) (t? : Option Nat) (u : String) (r : DownloadResult)
    (h : negotiateStage resp c? cur mode t? u = .error r) :
    isHtmlCandidate resp = true ∧ resp.body?.getD "" ≠ "" ∧
      confirmMarkers (resp.body?.getD "") = true := by
  simp only [negotiateStage] at h
  split at h
  next hcand =>
    split at h
    next hmark =>
      simp only [Bool.and_eq_true, decide_eq_true_eq, ne_eq] at hmark
      exact ⟨hcand, hmark.1, hmark.2⟩
    next => cases h
  next => cases h

/-- The negotiated flag of a successful stage is exactly the conjunction of
the header pre-check and the body markers. -/
theorem negotiateStage_ok_negot_iff (resp : GetResp) (c? : Option StreamResp)
    (cur : Nat) (mode : Mode) (t? : Option Nat) (u : String) (n0 : NegotOut)
    (h : negotiateStage resp c? cur mode t? u = .ok n0) :
    n0.negotiated = true ↔
      (isHtmlCandidate resp = true ∧ resp.body?.getD "" ≠ "" ∧
        confirmMarkers (resp.body?.getD "") = true) := by
  simp only [negotiateStage] at h
  split at h
  next hcand =>
    split at h
    next hmark =>
      simp only [Bool.and_eq_true, decide_eq_true_eq, ne_eq] at hmark
      split at h
      · cases h
      · split at h
        next hres =>
          injection h with h1
          subst h1
          exact ⟨fun _ => ⟨hcand, hmark.1, hmark.2⟩, fun _ => rfl⟩
        next hres =>
          injection h with h1
          subst h1
          exact ⟨fun _ => ⟨hcand, hmark.1, hmark.2⟩, fun _ => rfl⟩
    next hmark =>
      injection h with h1
      subst h1
      constructor
      · intro hfalse
        cases hfalse
      · intro hcon
        exfalso
        apply hmark
        simp only [Bool.and_eq_true, decide_eq_true_eq, ne_eq]
        exact ⟨hcon.2.1, hcon.2.2⟩
  next hcand =>
    injection h with h1
    subst h1
    constructor
    · intro hfalse
      cases hfalse
    · intro hcon
      rw [hcon.1] at hcand
      exact absurd rfl hcand

/-- Exhaustive decomposition of one attempt into its five exit shapes, each
with the defining equation. -/
theorem attempt_cases (task : DownloadTask) (env : AttemptEnv)
    (fp pp : String) (t? : Option Nat) (fs : FS) :
    (∃ fs' res cur, resumeSetup fs pp fp t? task.original_url = .earlyDone fs' res cur ∧
       performDownloadAttempt task env fp pp t? fs =
         { result := .ok res, fs := fs',
           trace := { effectiveTotal? := t?, bytesWritten := cur,
                      renamedAt := some cur } }) ∨
    (∃ cur mode r? e, resumeSetup fs pp fp t? task.original_url = .proceed cur mode r? ∧
       env.get r? = .error e ∧
       performDownloadAttempt task env fp pp t? fs =
         { result := .error e, fs := fs,
           trace := { getIssued := true, rangeHeader := r?,
                      initialMode? := some mode } }) ∨
    (∃ cur mode r? resp, resumeSetup fs pp fp t? task.original_url = .proceed cur mode r? ∧
       env.get r? = .ok resp ∧ 400 ≤ resp.status ∧
       performDownloadAttempt task env fp pp t? fs =
         { result := .error (.httpError resp.status), fs := fs,
           trace := { getIssued := true, rangeHeader := r?,
                      initialMode? := some mode } }) ∨
    (∃ cur mode r? resp res, resumeSetup fs pp fp t? task.original_url = .proceed cur mode r? ∧
       env.get r? = .ok resp ∧ resp.status < 400 ∧
       negotiateStage resp env.confirm cur mode t? task.original_url = .error res ∧
       performDownloadAttempt task env fp pp t? fs =
         { result := .ok res, fs := fs,
           trace := { getIssued := true, rangeHeader := r?,
                      initialMode? := some mode, negotiated := true } }) ∨
    (∃ cur mode r? resp n0, resumeSetup fs pp fp t? task.original_url = .proceed cur mode r? ∧
       env.get r? = .ok resp ∧ resp.status < 400 ∧
       negotiateStage resp env.confirm cur mode t? task.original_url = .ok n0 ∧
       performDownloadAttempt task env fp pp t? fs =
         { result := (streamStage task fp pp r? fs (rangeCheck n0)).result,
           fs := (streamStage task fp pp r? fs (rangeCheck n0)).fs,
           trace := { (streamStage task fp pp r? fs (rangeCheck n0)).trace with
                      initialMode? := some mode } }) := by
  cases heq : resumeSetup fs pp fp t? task.original_url with
  | earlyDone fs' res cur =>
    refine Or.inl ⟨fs', res, cur, rfl, ?_⟩
    simp only [performDownloadAttempt, heq]
  | proceed cur mode r? =>
    cases heq2 : env.get r? with
    | error e =>
      refine Or.inr (Or.inl ⟨cur, mode, r?, e, rfl, heq2, ?_⟩)
      simp only [performDownloadAttempt, heq, heq2]
    | ok resp =>
      by_cases hstatus : 400 ≤ resp.status
      · refine Or.inr (Or.inr (Or.inl ⟨cur, mode, r?, resp, rfl, heq2, hstatus, ?_⟩))
        simp only [performDownloadAttempt, heq, heq2, if_pos hstatus]
      · cases heq3 : negotiateStage resp env.confirm cur mode t? task.original_url with
        | error res =>
          refine Or.inr (Or.inr (Or.inr (Or.inl
            ⟨cur, mode, r?, resp, res, rfl, heq2, Nat.lt_of_not_le hstatus, heq3, ?_⟩)))
          simp only [performDownloadAttempt, heq, heq2, if_neg hstatus, heq3]
        | ok n0 =>
          refine Or.inr (Or.inr (Or.inr (Or.inr
            ⟨cur, mode, r?, resp, n0, rfl, heq2, Nat.lt_of_not_le hstatus, heq3, ?_⟩)))
          simp only [performDownloadAttempt, heq, heq2, if_neg hstatus, heq3]

/-- C5: for every attempt with a known positive effective expected size,
if the response stream ends with bytes written strictly less than that
size, the attempt does not return a result: it raises the retryable
`ConnectionError("Download stream ended prematurely.")` so the outer retry
policy can re-attempt. -/
theorem c5_short_stream_raises_retryable (task : DownloadTask) (env : AttemptEnv)
    (fp pp : String) (t? : Option Nat) (fs : FS) (n : Nat)
    (hsc : (performDownloadAttempt task env fp pp t? fs).trace.streamCompleted = true)
    (ht : (performDownloadAttempt task env fp pp t? fs).trace.effectiveTotal? = some n)
    (hn : 0 < n)
    (hlt : (performDownloadAttempt task env fp pp t? fs).trace.bytesWritten < n) :
    (performDownloadAttempt task env fp pp t? fs).result =
      .error (.connectionError "Download stream ended prematurely.") ∧
    PyExc.retryable (.connectionError "Download stream ended prematurely.") = true := by
  refine ⟨?_, rfl⟩
  rcases attempt_cases task env fp pp t? fs with
    ⟨fs', res, cur, heq, hA⟩ | ⟨cur, mode, r?, e, heq, heq2, hA⟩ |
    ⟨cur, mode, r?, resp, heq, heq2, hstatus, hA⟩ |
    ⟨cur, mode, r?, resp, res, heq, heq2, hstatus, heq3, hA⟩ |
    ⟨cur, mode, r?, resp, n0, heq, heq2, hstatus, heq3, hA⟩
  · rw [hA] at hsc; cases hsc
  · rw [hA] at hsc; cases hsc
  · rw [hA] at hsc; cases hsc
  · rw [hA] at hsc; cases hsc
  · rw [hA] at hsc ht hlt ⊢
    exact streamStage_short task fp pp r? fs (rangeCheck n0) n hsc ht hn hlt

/-- C5 witness: a 200 response advertising 10 bytes but delivering only 3
makes the attempt raise the retryable premature-termination error. -/
theorem c5_witness :
    (performDownloadAttempt
      { original_url := "u", file_id := "i", download_url := "d",
        filename_hint := "file", file_extension := ".pdf" }
      { get := fun _ =>
          .ok { status := 200, contentType := "application/pdf",
                hasContentDisposition := true, contentLength? := some 10,
                delivered := 3 },
        confirm := none }
      "downloaded_files/file.pdf" "downloaded_files/file.pdf.part" (some 10)
      ⟨[]⟩).result =
      .error (.connectionError "Download stream ended prematurely.") ∧
    PyExc.retryable (.connectionError "Download stream ended prematurely.") = true :=
  c5_short_stream_raises_retryable
    { original_url := "u", file_id := "i", download_url := "d",
      filename_hint := "file", file_extension := ".pdf" }
    { get := fun _ =>
        .ok { status := 200, contentType := "application/pdf",
              hasContentDisposition := true, contentLength? := some 10,
              delivered := 3 },
      confirm := none }
    "downloaded_files/file.pdf" "downloaded_files/file.pdf.part" (some 10)
    ⟨[]⟩ 10 (by decide) (by decide) (by decide) (by decide)

/-- C7: whenever the attempt opens the output file (so a stream is about to
be consumed) and the effective response — direct or substituted by
confirmation negotiation — is a full HTTP 200, the open mode is truncate
and the byte counter is zero: prior partial progress is discarded and the
file is built entirely from the fresh response. -/
theorem c7_full_response_resets (task : DownloadTask) (env : AttemptEnv)
    (fp pp : String) (t? : Option Nat) (fs : FS) (m : Mode)
    (hm : (performDownloadAttempt task env fp pp t? fs).trace.openMode? = some m)
    (hst : (performDownloadAttempt task env fp pp t? fs).trace.effectiveStatus? = some 200) :
    m = .wb ∧ (performDownloadAttempt task env fp pp t? fs).trace.counterAtStream = 0 := by
  rcases attempt_cases task env fp pp t? fs with
    ⟨fs', res, cur, heq, hA⟩ | ⟨cur, mode, r?, e, heq, heq2, hA⟩ |
    ⟨cur, mode, r?, resp, heq, heq2, hstatus, hA⟩ |
    ⟨cur, mode, r?, resp, res, heq, heq2, hstatus, heq3, hA⟩ |
    ⟨cur, mode, r?, resp, n0, heq, heq2, hstatus, heq3, hA⟩
  · rw [hA] at hm; cases hm
  · rw [hA] at hm; cases hm
  · rw [hA] at hm; cases hm
  · rw [hA] at hm; cases hm
  · rw [hA] at hm hst ⊢
    obtain ⟨-, -, hOM, hCS, hES, -, -, -⟩ :=
      streamStage_trace_fields task fp pp r? fs (rangeCheck n0)
    have hm2 : (rangeCheck n0).mode = m := by
      have := hm
      rw [show ({ (streamStage task fp pp r? fs (rangeCheck n0)).trace with
            initialMode? := some mode } : AttemptTrace).openMode?
          = (streamStage task fp pp r? fs (rangeCheck n0)).trace.openMode? from rfl,
        hOM] at this
      injection this
    have hst2 : (rangeCheck n0).stream.status = 200 := by
      have := hst
      rw [show ({ (streamStage task fp pp r? fs (rangeCheck n0)).trace with
            initialMode? := some mode } : AttemptTrace).effectiveStatus?
          = (streamStage task fp pp r? fs (rangeCheck n0)).trace.effectiveStatus? from rfl,
        hES] at this
      injection this
    have hgoal2 : ({ (streamStage task fp pp r? fs (rangeCheck n0)).trace with
        initialMode? := some mode } : AttemptTrace).counterAtStream
        = (rangeCheck n0).cur := hCS
    rw [hgoal2, ← hm2]
    have hres := resumeSetup_proceed fs pp fp t? task.original_url cur mode r? heq
    have hneg := negotiateStage_ok_cases resp env.confirm cur mode t?
      task.original_url n0 heq3
    rcases rangeCheck_cases n0 with ⟨hpos, hnegf, h200, hrc⟩ | ⟨hrc, halt⟩
    · rw [hrc]
      exact ⟨rfl, rfl⟩
    · rw [hrc] at hst2 ⊢
      have hmodewb : cur = 0 → n0.mode = mode → mode = .wb := by
        intro hc0 _
        rcases hres with ⟨-, hposc, -, -, -, -⟩ | ⟨hmw, -, -⟩
        · omega
        · exact hmw
      rcases halt with hneg1 | hcur0 | hne200
      · rcases hneg with ⟨-, -, -, hnf⟩ | ⟨cr, -, hstr, -, hsub⟩
        · rw [hneg1] at hnf
          cases hnf
        · rcases hsub with ⟨hc0, hmw⟩ | ⟨hcc, hmm, hnot⟩
          · exact ⟨hmw, hc0⟩
          · have hcr200 : cr.status = 200 := by rw [hstr] at hst2; exact hst2
            have hcur0 : cur = 0 := by
              by_contra hne
              exact hnot ⟨Nat.pos_of_ne_zero hne, hcr200⟩
            refine ⟨hmm.trans (hmodewb hcur0 hmm), ?_⟩
            rw [hcc, hcur0]
      · rcases hneg with ⟨-, hcc, hmm, -⟩ | ⟨cr, -, -, -, hsub⟩
        · have hcurz : cur = 0 := by rw [hcur0] at hcc; exact hcc.symm
          exact ⟨hmm.trans (hmodewb hcurz hmm), hcur0⟩
        · rcases hsub with ⟨hc0, hmw⟩ | ⟨hcc, hmm, -⟩
          · exact ⟨hmw, hc0⟩
          · have hcurz : cur = 0 := by rw [hcur0] at hcc; exact hcc.symm
            exact ⟨hmm.trans (hmodewb hcurz hmm), hcur0⟩
      · exact absurd hst2 hne200

/-- C7 witness: a 3-byte partial file, a Range request, and a server that
answers with a full 200 carrying all 10 bytes — the attempt truncates and
counts from zero. -/
theorem c7_witness :
    Mode.wb = Mode.wb ∧
    (performDownloadAttempt
      { original_url := "u", file_id := "i", download_url := "d",
        filename_hint := "file", file_extension := ".pdf" }
      { get := fun _ =>
          .ok { status := 200, contentType := "application/pdf",
                hasContentDisposition := true, contentLength? := some 10,
                delivered := 10 },
        confirm := none }
      "downloaded_files/file.pdf" "downloaded_files/file.pdf.part" (some 10)
      ⟨[("downloaded_files/file.pdf.part", 3)]⟩).trace.counterAtStream = 0 :=
  c7_full_response_resets
    { original_url := "u", file_id := "i", download_url := "d",
      filename_hint := "file", file_extension := ".pdf" }
    { get := fun _ =>
        .ok { status := 200, contentType := "application/pdf",
              hasContentDisposition := true, contentLength? := some 10,
              delivered := 10 },
      confirm := none }
    "downloaded_files/file.pdf" "downloaded_files/file.pdf.part" (some 10)
    ⟨[("downloaded_files/file.pdf.part", 3)]⟩ Mode.wb (by decide) (by decide)

/-- C1 counterexample: with an expected size of 5 and a pre-existing
6-byte `.part` file, the attempt renames the oversized partial file and
returns success, yet the file at the final path has size 6, not 5 — the
claimed "size exactly equal to the expected size" is false. -/
theorem c1_counterexample :
    (performDownloadAttempt
      { original_url := "u", file_id := "i", download_url := "d",
        filename_hint := "file", file_extension := ".pdf" }
      { get := fun _ => .ok { status := 200 }, confirm := none }
      "downloaded_files/file.pdf" "downloaded_files/file.pdf.part" (some 5)
      ⟨[("downloaded_files/file.pdf.part", 6)]⟩).trace.effectiveTotal? = some 5 ∧
    (performDownloadAttempt
      { original_url := "u", file_id := "i", download_url := "d",
        filename_hint := "file", file_extension := ".pdf" }
      { get := fun _ => .ok { status := 200 }, confirm := none }
      "downloaded_files/file.pdf" "downloaded_files/file.pdf.part" (some 5)
      ⟨[("downloaded_files/file.pdf.part", 6)]⟩).result =
      .ok { original_url := "u", success := true,
            filepath := some "downloaded_files/file.pdf",
            message := "Success (resumed and completed): file.pdf" } ∧
    ¬ (performDownloadAttempt
      { original_url := "u", file_id := "i", download_url := "d",
        filename_hint := "file", file_extension := ".pdf" }
      { get := fun _ => .ok { status := 200 }, confirm := none }
      "downloaded_files/file.pdf" "downloaded_files/file.pdf.part" (some 5)
      ⟨[("downloaded_files/file.pdf.part", 6)]⟩).fs.getsize
        "downloaded_files/file.pdf" = 5 := by
  decide

/-- C1 (amended): for every attempt with a known positive effective
expected size, a success result implies the file at the final path has
size at least the expected size, and the `.part` file is renamed to the
final path only at a byte count that has reached the expected size — a
file holding fewer bytes than expected is never renamed to the final
name. -/
theorem c1_success_size_at_least (task : DownloadTask) (env : AttemptEnv)
    (fp pp : String) (t? : Option Nat) (fs : FS) (res : DownloadResult) (n : Nat)
    (h : (performDownloadAttempt task env fp pp t? fs).result = .ok res)
    (hs : res.success = true)
    (ht : (performDownloadAttempt task env fp pp t? fs).trace.effectiveTotal? = some n)
    (hn : 0 < n) :
    n ≤ (performDownloadAttempt task env fp pp t? fs).fs.getsize fp ∧
    (∀ m, (performDownloadAttempt task env fp pp t? fs).trace.renamedAt = some m →
       n ≤ m) := by
  obtain ⟨A1, A2, A3⟩ := attempt_ok_success task env fp pp t? fs res h hs
  have hb := A3 n ht hn
  refine ⟨by rw [A1]; exact hb, ?_⟩
  intro m hm
  rw [A2] at hm
  injection hm with hm
  omega

/-- C1 witness: a complete 5-byte transfer with expected size 5 satisfies
the amended bound. -/
theorem c1_witness :
    5 ≤ (performDownloadAttempt
      { original_url := "u", file_id := "i", download_url := "d",
        filename_hint := "file", file_extension := ".pdf" }
      { get := fun _ =>
          .ok { status := 200, contentType := "application/pdf",
                hasContentDisposition := true, contentLength? := some 5,
                delivered := 5 },
        confirm := none }
      "downloaded_files/file.pdf" "downloaded_files/file.pdf.part" (some 5)
      ⟨[]⟩).fs.getsize "downloaded_files/file.pdf" ∧
    (∀ m, (performDownloadAttempt
      { original_url := "u", file_id := "i", download_url := "d",
        filename_hint := "file", file_extension := ".pdf" }
      { get := fun _ =>
          .ok { status := 200, contentType := "application/pdf",
                hasContentDisposition := true, contentLength? := some 5,
                delivered := 5 },
        confirm := none }
      "downloaded_files/file.pdf" "downloaded_files/file.pdf.part" (some 5)
      ⟨[]⟩).trace.renamedAt = some m → 5 ≤ m) :=
  c1_success_size_at_least
    { original_url := "u", file_id := "i", download_url := "d",
      filename_hint := "file", file_extension := ".pdf" }
    { get := fun _ =>
        .ok { status := 200, contentType := "application/pdf",
              hasContentDisposition := true, contentLength? := some 5,
              delivered := 5 },
      confirm := none }
    "downloaded_files/file.pdf" "downloaded_files/file.pdf.part" (some 5) ⟨[]⟩
    { original_url := "u", success := true,
      filepath := some "downloaded_files/file.pdf",
      message := "Success: file.pdf" } 5
    (by decide) (by decide) (by decide) (by decide)

/-- C3 counterexample: a 7-byte file already sits at the final path; the
attempt downloads 5 fresh bytes to the `.part` file, renames it over the
existing file (POSIX rename semantics) and reports success — the claimed
"fatal condition, not silently ignored" is false: the existing file is
silently overwritten and success is reported. -/
theorem c3_counterexample :
    (FS.hasFile ⟨[("downloaded_files/file.pdf", 7)]⟩ "downloaded_files/file.pdf") = true ∧
    (performDownloadAttempt
      { original_url := "u", file_id := "i", download_url := "d",
        filename_hint := "file", file_extension := ".pdf" }
      { get := fun _ =>
          .ok { status := 200, contentType := "application/octet-stream",
                hasContentDisposition := true, contentLength? := some 5,
                delivered := 5 },
        confirm := none }
      "downloaded_files/file.pdf" "downloaded_files/file.pdf.part" (some 5)
      ⟨[("downloaded_files/file.pdf", 7)]⟩).result =
      .ok { original_url := "u", success := true,
            filepath := some "downloaded_files/file.pdf",
            message := "Success: file.pdf" } ∧
    (performDownloadAttempt
      { original_url := "u", file_id := "i", download_url := "d",
        filename_hint := "file", file_extension := ".pdf" }
      { get := fun _ =>
          .ok { status := 200, contentType := "application/octet-stream",
                hasContentDisposition := true, contentLength? := some 5,
                delivered := 5 },
        confirm := none }
      "downloaded_files/file.pdf" "downloaded_files/file.pdf.part" (some 5)
      ⟨[("downloaded_files/file.pdf", 7)]⟩).fs.lookup "downloaded_files/file.pdf" =
      some 5 := by
  decide

/-- C3 (amended): the attempt performs no existence check on the rename
target; when a file already exists at the final path and the attempt
completes, the rename (POSIX semantics, as used by `os.rename`) silently
replaces it — the attempt reports success and the final path afterwards
holds exactly the bytes written by this attempt. -/
theorem c3_rename_replaces_existing (task : DownloadTask) (env : AttemptEnv)
    (fp pp : String) (t? : Option Nat) (fs : FS) (res : DownloadResult)
    (_hpre : fs.hasFile fp = true)
    (h : (performDownloadAttempt task env fp pp t? fs).result = .ok res)
    (hs : res.success = true) :
    (performDownloadAttempt task env fp pp t? fs).fs.getsize fp
      = (performDownloadAttempt task env fp pp t? fs).trace.bytesWritten ∧
    (performDownloadAttempt task env fp pp t? fs).trace.renamedAt
      = some ((performDownloadAttempt task env fp pp t? fs).trace.bytesWritten) := by
  obtain ⟨A1, A2, A3⟩ := attempt_ok_success task env fp pp t? fs res h hs
  exact ⟨A1, A2⟩

/-- C3 witness: the counterexample scenario discharges the amended claim's
hypotheses. -/
theorem c3_witness :
    (performDownloadAttempt
      { original_url := "u", file_id := "i", download_url := "d",
        filename_hint := "file", file_extension := ".pdf" }
      { get := fun _ =>
          .ok { status := 200, contentType := "application/octet-stream",
                hasContentDisposition := true, contentLength? := some 5,
                delivered := 5 },
        confirm := none }
      "downloaded_files/file.pdf" "downloaded_files/file.pdf.part" (some 5)
      ⟨[("downloaded_files/file.pdf", 7)]⟩).fs.getsize "downloaded_files/file.pdf"
      = (performDownloadAttempt
      { original_url := "u", file_id := "i", download_url := "d",
        filename_hint := "file", file_extension := ".pdf" }
      { get := fun _ =>
          .ok { status := 200, contentType := "application/octet-stream",
                hasContentDisposition := true, contentLength? := some 5,
                delivered := 5 },
        confirm := none }
      "downloaded_files/file.pdf" "downloaded_files/file.pdf.part" (some 5)
      ⟨[("downloaded_files/file.pdf", 7)]⟩).trace.bytesWritten ∧
    (performDownloadAttempt
      { original_url := "u", file_id := "i", download_url := "d",
        filename_hint := "file", file_extension := ".pdf" }
      { get := fun _ =>
          .ok { status := 200, contentType := "application/octet-stream",
                hasContentDisposition := true, contentLength? := some 5,
                delivered := 5 },
        confirm := none }
      "downloaded_files/file.pdf" "downloaded_files/file.pdf.part" (some 5)
      ⟨[("downloaded_files/file.pdf", 7)]⟩).trace.renamedAt
      = some ((performDownloadAttempt
      { original_url := "u", file_id := "i", download_url := "d",
        filename_hint := "file", file_extension := ".pdf" }
      { get := fun _ =>
          .ok { status := 200, contentType := "application/octet-stream",
                hasContentDisposition := true, contentLength? := some 5,
                delivered := 5 },
        confirm := none }
      "downloaded_files/file.pdf" "downloaded_files/file.pdf.part" (some 5)
      ⟨[("downloaded_files/file.pdf", 7)]⟩).trace.bytesWritten) :=
  c3_rename_replaces_existing
    { original_url := "u", file_id := "i", download_url := "d",
      filename_hint := "file", file_extension := ".pdf" }
    { get := fun _ =>
        .ok { status := 200, contentType := "application/octet-stream",
              hasContentDisposition := true, contentLength? := some 5,
              delivered := 5 },
      confirm := none }
    "downloaded_files/file.pdf" "downloaded_files/file.pdf.part" (some 5)
    ⟨[("downloaded_files/file.pdf", 7)]⟩
    { original_url := "u", success := true,
      filepath := some "downloaded_files/file.pdf",
      message := "Success: file.pdf" }
    (by decide) (by decide) (by decide)

/-- C8 counterexample: a 200 response with content-type `text/html` and no
content-disposition — satisfying the header pre-check — whose body holds no
confirmation marker is NOT passed to negotiation: the header condition
alone does not characterize the responses treated as interstitials. -/
theorem c8_counterexample :
    isHtmlCandidate
      { status := 200, contentType := "text/html; charset=utf-8",
        hasContentDisposition := false, contentLength? := some 5,
        delivered := 5, body? := some "<html>hello</html>" } = true ∧
    (performDownloadAttempt
      { original_url := "u", file_id := "i", download_url := "d",
        filename_hint := "file", file_extension := ".pdf" }
      { get := fun _ =>
          .ok { status := 200, contentType := "text/html; charset=utf-8",
                hasContentDisposition := false, contentLength? := some 5,
                delivered := 5, body? := some "<html>hello</html>" },
        confirm := none }
      "downloaded_files/file.pdf" "downloaded_files/file.pdf.part" (some 5)
      ⟨[]⟩).trace.negotiated = false := by
  decide

/-- C8 (amended): the header pre-check (content-type contains the HTML
marker and no content-disposition) selects candidates before the stream is
consumed; among responses actually reaching the check, exactly those whose
body text is non-empty and contains a confirmation marker (`downloadForm`,
`confirm=`, or `Virus scan warning`) are passed to negotiation. -/
theorem c8_candidates_and_markers (task : DownloadTask) (env : AttemptEnv)
    (fp pp : String) (t? : Option Nat) (fs : FS) (cur : Nat) (mode : Mode)
    (r? : Option String) (resp : GetResp)
    (hrs : resumeSetup fs pp fp t? task.original_url = .proceed cur mode r?)
    (hget : env.get r? = .ok resp)
    (hstatus : resp.status < 400) :
    (performDownloadAttempt task env fp pp t? fs).trace.negotiated = true ↔
      (isHtmlCandidate resp = true ∧ resp.body?.getD "" ≠ "" ∧
        confirmMarkers (resp.body?.getD "") = true) := by
  rcases attempt_cases task env fp pp t? fs with
    ⟨fs1, res1, cur1, heq, hA⟩ | ⟨cur1, mode1, rr1, e1, heq, heq2, hA⟩ |
    ⟨cur1, mode1, rr1, resp1, heq, heq2, hstat1, hA⟩ |
    ⟨cur1, mode1, rr1, resp1, res1, heq, heq2, hstat1, heq3, hA⟩ |
    ⟨cur1, mode1, rr1, resp1, n0, heq, heq2, hstat1, heq3, hA⟩
  · rw [hrs] at heq
    cases heq
  · rw [hrs] at heq
    injection heq with e1h e2h e3h
    subst e1h; subst e2h; subst e3h
    rw [hget] at heq2
    cases heq2
  · rw [hrs] at heq
    injection heq with e1h e2h e3h
    subst e1h; subst e2h; subst e3h
    rw [hget] at heq2
    injection heq2 with e4h
    subst e4h
    omega
  · rw [hrs] at heq
    injection heq with e1h e2h e3h
    subst e1h; subst e2h; subst e3h
    rw [hget] at heq2
    injection heq2 with e4h
    subst e4h
    rw [hA]
    have hcond := negotiateStage_error_cond resp env.confirm cur mode t?
      task.original_url res1 heq3
    exact ⟨fun _ => hcond, fun _ => rfl⟩
  · rw [hrs] at heq
    injection heq with e1h e2h e3h
    subst e1h; subst e2h; subst e3h
    rw [hget] at heq2
    injection heq2 with e4h
    subst e4h
    rw [hA]
    have hiff := negotiateStage_ok_negot_iff resp env.confirm cur mode t?
      task.original_url n0 heq3
    have htr : ({ (streamStage task fp pp r? fs (rangeCheck n0)).trace with
        initialMode? := some mode } : AttemptTrace).negotiated
        = (rangeCheck n0).negotiated :=
      (streamStage_trace_fields task fp pp r? fs (rangeCheck n0)).2.1
    rw [htr, (rangeCheck_fields n0).1]
    exact hiff

/-- C8 witness: the counterexample response satisfies the amended claim's
hypotheses — the iff holds with both sides false. -/
theorem c8_witness :
    (performDownloadAttempt
      { original_url := "u", file_id := "i", download_url := "d",
        filename_hint := "file", file_extension := ".pdf" }
      { get := fun _ =>
          .ok { status := 200, contentType := "text/html; charset=utf-8",
                hasContentDisposition := false, contentLength? := some 5,
                delivered := 5, body? := some "<html>hello</html>" },
        confirm := none }
      "downloaded_files/file.pdf" "downloaded_files/file.pdf.part" (some 5)
      ⟨[]⟩).trace.negotiated = true ↔
      (isHtmlCandidate
        { status := 200, contentType := "text/html; charset=utf-8",
          hasContentDisposition := false, contentLength? := some 5,
          delivered := 5, body? := some "<html>hello</html>" } = true ∧
       (GetResp.body?
          { status := 200, contentType := "text/html; charset=utf-8",
            hasContentDisposition := false, contentLength? := some 5,
            delivered := 5, body? := some "<html>hello</html>" }).getD "" ≠ "" ∧
       confirmMarkers ((GetResp.body?
          { status := 200, contentType := "text/html; charset=utf-8",
            hasContentDisposition := false, contentLength? := some 5,
            delivered := 5, body? := some "<html>hello</html>" }).getD "") = true) :=
  c8_candidates_and_markers
    { original_url := "u", file_id := "i", download_url := "d",
      filename_hint := "file", file_extension := ".pdf" }
    { get := fun _ =>
        .ok { status := 200, contentType := "text/html; charset=utf-8",
              hasContentDisposition := false, contentLength? := some 5,
              delivered := 5, body? := some "<html>hello</html>" },
      confirm := none }
    "downloaded_files/file.pdf" "downloaded_files/file.pdf.part" (some 5) ⟨[]⟩
    0 .wb none
    { status := 200, contentType := "text/html; charset=utf-8",
      hasContentDisposition := false, contentLength? := some 5,
      delivered := 5, body? := some "<html>hello</html>" }
    (by decide) (by decide) (by decide)

/-- A resumed attempt against a range-supporting server: 206 response with
the remaining `n - k` bytes appended to a `k`-byte partial file ends as a
success with the final file at exactly `n` bytes. -/
theorem streamStage_resume206 (task : DownloadTask) (fp pp : String)
    (r? : Option String) (fs : FS) (k n : Nat) (resp : GetResp)
    (hsize : fs.getsize pp = k) (_hk : 0 < k) (hkn : k < n)
    (hst : resp.status = 206) (hcl : resp.contentLength? = some (n - k))
    (hdel : resp.delivered = n - k) (hse : resp.streamErr = none) :
    (streamStage task fp pp r? fs
        { stream := resp.toStream, cur := k, mode := .ab, total? := some n,
          negotiated := false }).result
      = .ok { original_url := task.original_url, success := true,
              filepath := some fp, message := "Success: " ++ basename fp } ∧
    (streamStage task fp pp r? fs
        { stream := resp.toStream, cur := k, mode := .ab, total? := some n,
          negotiated := false }).fs.getsize fp = n := by
  have hcs : resp.toStream.contentLength? = some (n - k) := hcl
  have hss : resp.toStream.status = 206 := hst
  have hds : resp.toStream.delivered = n - k := hdel
  have hes : resp.toStream.streamErr = none := hse
  have hnk : n - k + k = n := by omega
  have htot : refineTotal
      { stream := resp.toStream, cur := k, mode := .ab, total? := some n,
        negotiated := false } = some n := by
    simp only [refineTotal, hcs, hss, hnk, eq_self_iff_true, if_true, ite_self]
  have hwrite : (streamWrite fs pp Mode.ab resp.toStream.delivered).getsize pp = n := by
    unfold streamWrite
    rw [getsize_setFile_self]
    show fs.getsize pp + resp.toStream.delivered = n
    rw [hsize, hds]
    omega
  have hhas : (streamWrite fs pp Mode.ab resp.toStream.delivered).hasFile pp = true := by
    unfold streamWrite
    exact hasFile_setFile_self _ _ _
  have hcond : (truthyN (refineTotal
      { stream := resp.toStream, cur := k, mode := .ab, total? := some n,
        negotiated := false }) &&
      decide (k + resp.toStream.delivered < (refineTotal
      { stream := resp.toStream, cur := k, mode := .ab, total? := some n,
        negotiated := false }).getD 0)) = false := by
    rw [htot, hds]
    simp only [truthyN, Option.getD_some, Bool.and_eq_false_iff]
    right
    simp only [decide_eq_false_iff_not]
    omega
  simp only [streamStage, DOWNLOAD_TO_PART_FILES, if_true, hes, hcond,
    Bool.false_eq_true, if_false, Bool.true_and, hhas]
  refine ⟨trivial, ?_⟩
  rw [getsize_renameFile_dst _ _ _ hhas, hwrite]

/-- The resume decision for a partial file of size `0 < k < n`. -/
theorem resumeSetup_resume (fs : FS) (pp fp : String) (n : Nat) (u : String) (k : Nat)
    (hex : fs.hasFile pp = true) (hsize : fs.getsize pp = k)
    (hk : 0 < k) (hkn : k < n) :
    resumeSetup fs pp fp (some n) u
      = .proceed k .ab (some ("bytes=" ++ toString k ++ "-")) := by
  have hcond1 : (truthyN (some n) && decide (0 < k)
      && decide (k < (some n).getD 0)) = true := by
    simp only [truthyN, Option.getD_some, Bool.and_eq_true, decide_eq_true_eq, ne_eq]
    refine ⟨⟨?_, ?_⟩, ?_⟩ <;> omega
  simp only [resumeSetup, DOWNLOAD_TO_PART_FILES, Bool.true_and, hex, if_true,
    hsize, hcond1]

/-- C4 (amended): (a) a `.part` file of size `k` with `0 < k` below the
known expected total `n` makes the attempt send `Range: bytes=k-` and
decide on append mode; (b) whenever a GET is issued without a Range
header, the decided open mode is truncate; (c) a resumed transfer against
a range-supporting server (206 carrying the remaining bytes) succeeds with
the final file size equal to the expected size.  (The original claim also
asserted a Range request for a zero-byte `.part` file, which the code does
not send — see the counterexample.) -/
theorem c4_resume_range_semantics :
    (∀ (task : DownloadTask) (env : AttemptEnv) (fp pp : String) (k n : Nat) (fs : FS),
       fs.hasFile pp = true → fs.getsize pp = k → 0 < k → k < n →
       (performDownloadAttempt task env fp pp (some n) fs).trace.rangeHeader
           = some ("bytes=" ++ toString k ++ "-") ∧
       (performDownloadAttempt task env fp pp (some n) fs).trace.initialMode?
           = some .ab) ∧
    (∀ (task : DownloadTask) (env : AttemptEnv) (fp pp : String) (t? : Option Nat)
       (fs : FS),
       (performDownloadAttempt task env fp pp t? fs).trace.getIssued = true →
       (performDownloadAttempt task env fp pp t? fs).trace.rangeHeader = none →
       (performDownloadAttempt task env fp pp t? fs).trace.initialMode? = some .wb) ∧
    (∀ (task : DownloadTask) (env : AttemptEnv) (fp pp : String) (k n : Nat) (fs : FS)
       (resp : GetResp),
       fs.hasFile pp = true → fs.getsize pp = k → 0 < k → k < n →
       env.get (some ("bytes=" ++ toString k ++ "-")) = .ok resp →
       isHtmlCandidate resp = false → resp.status = 206 →
       resp.contentLength? = some (n - k) → resp.delivered = n - k →
       resp.streamErr = none →
       (performDownloadAttempt task env fp pp (some n) fs).result
         = .ok { original_url := task.original_url, success := true,
                 filepath := some fp, message := "Success: " ++ basename fp } ∧
       (performDownloadAttempt task env fp pp (some n) fs).fs.getsize fp = n) := by
  refine ⟨?_, ?_, ?_⟩
  · intro task env fp pp k n fs hex hsize hk hkn
    have hrs := resumeSetup_resume fs pp fp n task.original_url k hex hsize hk hkn
    rcases attempt_cases task env fp pp (some n) fs with
      ⟨fs1, res1, cur1, heq, hA⟩ | ⟨cur1, mode1, rr1, e1, heq, heq2, hA⟩ |
      ⟨cur1, mode1, rr1, resp1, heq, heq2, hstat1, hA⟩ |
      ⟨cur1, mode1, rr1, resp1, res1, heq, heq2, hstat1, heq3, hA⟩ |
      ⟨cur1, mode1, rr1, resp1, n0, heq, heq2, hstat1, heq3, hA⟩
    · rw [hrs] at heq
      cases heq
    · rw [hrs] at heq
      injection heq with e1h e2h e3h
      subst e1h; subst e2h; subst e3h
      rw [hA]
      exact ⟨rfl, rfl⟩
    · rw [hrs] at heq
      injection heq with e1h e2h e3h
      subst e1h; subst e2h; subst e3h
      rw [hA]
      exact ⟨rfl, rfl⟩
    · rw [hrs] at heq
      injection heq with e1h e2h e3h
      subst e1h; subst e2h; subst e3h
      rw [hA]
      exact ⟨rfl, rfl⟩
    · rw [hrs] at heq
      injection heq with e1h e2h e3h
      subst e1h; subst e2h; subst e3h
      rw [hA]
      refine ⟨?_, rfl⟩
      exact (streamStage_trace_fields task fp pp
        (some ("bytes=" ++ toString k ++ "-")) fs (rangeCheck n0)).1
  · intro task env fp pp t? fs hgi hnone
    rcases attempt_cases task env fp pp t? fs with
      ⟨fs1, res1, cur1, heq, hA⟩ | ⟨cur1, mode1, rr1, e1, heq, heq2, hA⟩ |
      ⟨cur1, mode1, rr1, resp1, heq, heq2, hstat1, hA⟩ |
      ⟨cur1, mode1, rr1, resp1, res1, heq, heq2, hstat1, heq3, hA⟩ |
      ⟨cur1, mode1, rr1, resp1, n0, heq, heq2, hstat1, heq3, hA⟩
    · rw [hA] at hgi
      cases hgi
    · rw [hA] at hnone ⊢
      have hr : rr1 = none := hnone
      rcases resumeSetup_proceed fs pp fp t? task.original_url cur1 mode1 rr1 heq with
        ⟨-, -, -, -, -, hsome⟩ | ⟨hwb, -, -⟩
      · rw [hsome] at hr
        cases hr
      · rw [hwb]
    · rw [hA] at hnone ⊢
      have hr : rr1 = none := hnone
      rcases resumeSetup_proceed fs pp fp t? task.original_url cur1 mode1 rr1 heq with
        ⟨-, -, -, -, -, hsome⟩ | ⟨hwb, -, -⟩
      · rw [hsome] at hr
        cases hr
      · rw [hwb]
    · rw [hA] at hnone ⊢
      have hr : rr1 = none := hnone
      rcases resumeSetup_proceed fs pp fp t? task.original_url cur1 mode1 rr1 heq with
        ⟨-, -, -, -, -, hsome⟩ | ⟨hwb, -, -⟩
      · rw [hsome] at hr
        cases hr
      · rw [hwb]
    · rw [hA] at hnone ⊢
      have hr : rr1 = none := by
        rw [← (streamStage_trace_fields task fp pp rr1 fs (rangeCheck n0)).1]
        exact hnone
      rcases resumeSetup_proceed fs pp fp t? task.original_url cur1 mode1 rr1 heq with
        ⟨-, -, -, -, -, hsome⟩ | ⟨hwb, -, -⟩
      · rw [hsome] at hr
        cases hr
      · rw [hwb]
  · intro task env fp pp k n fs resp hex hsize hk hkn hget hcand h206 hcl hdel hse
    have hrs := resumeSetup_resume fs pp fp n task.original_url k hex hsize hk hkn
    have hns : negotiateStage resp env.confirm k .ab (some n) task.original_url
        = .ok { stream := resp.toStream, cur := k, mode := .ab, total? := some n,
                negotiated := false } := by
      simp only [negotiateStage, hcand, Bool.false_eq_true, if_false]
    have hrc : rangeCheck
        { stream := resp.toStream, cur := k, mode := .ab, total? := some n,
          negotiated := false }
        = { stream := resp.toStream, cur := k, mode := .ab, total? := some n,
            negotiated := false } := by
      unfold rangeCheck
      rw [if_neg]
      intro hcontra
      simp only [Bool.and_eq_true, decide_eq_true_eq] at hcontra
      have : resp.toStream.status = 206 := h206
      rw [this] at hcontra
      omega
    rcases attempt_cases task env fp pp (some n) fs with
      ⟨fs1, res1, cur1, heq, hA⟩ | ⟨cur1, mode1, rr1, e1, heq, heq2, hA⟩ |
      ⟨cur1, mode1, rr1, resp1, heq, heq2, hstat1, hA⟩ |
      ⟨cur1, mode1, rr1, resp1, res1, heq, heq2, hstat1, heq3, hA⟩ |
      ⟨cur1, mode1, rr1, resp1, n0, heq, heq2, hstat1, heq3, hA⟩
    · rw [hrs] at heq
      cases heq
    · rw [hrs] at heq
      injection heq with e1h e2h e3h
      subst e1h; subst e2h; subst e3h
      rw [hget] at heq2
      cases heq2
    · rw [hrs] at heq
      injection heq with e1h e2h e3h
      subst e1h; subst e2h; subst e3h
      rw [hget] at heq2
      injection heq2 with e4h
      subst e4h
      rw [h206] at hstat1
      omega
    · rw [hrs] at heq
      injection heq with e1h e2h e3h
      subst e1h; subst e2h; subst e3h
      rw [hget] at heq2
      injection heq2 with e4h
      subst e4h
      rw [hns] at heq3
      cases heq3
    · rw [hrs] at heq
      injection heq with e1h e2h e3h
      subst e1h; subst e2h; subst e3h
      rw [hget] at heq2
      injection heq2 with e4h
      subst e4h
      rw [hns] at heq3
      injection heq3 with e5h
      subst e5h
      rw [hA, hrc]
      have L := streamStage_resume206 task fp pp
        (some ("bytes=" ++ toString k ++ "-")) fs k n resp hsize hk hkn h206 hcl hdel hse
      exact ⟨L.1, L.2⟩

/-- C4 counterexample: a zero-byte `.part` file lies below the expected
total of 5 bytes, yet the attempt sends no Range header and decides on
truncate mode — the claimed Range request at offset `k` is not issued for
`k = 0`. -/
theorem c4_counterexample :
    (FS.getsize ⟨[("downloaded_files/file.pdf.part", 0)]⟩
      "downloaded_files/file.pdf.part") = 0 ∧
    (performDownloadAttempt
      { original_url := "u", file_id := "i", download_url := "d",
        filename_hint := "file", file_extension := ".pdf" }
      { get := fun _ =>
          .ok { status := 200, contentType := "application/pdf",
                hasContentDisposition := true, contentLength? := some 5,
                delivered := 5 },
        confirm := none }
      "downloaded_files/file.pdf" "downloaded_files/file.pdf.part" (some 5)
      ⟨[("downloaded_files/file.pdf.part", 0)]⟩).trace.rangeHeader = none ∧
    (performDownloadAttempt
      { original_url := "u", file_id := "i", download_url := "d",
        filename_hint := "file", file_extension := ".pdf" }
      { get := fun _ =>
          .ok { status := 200, contentType := "application/pdf",
                hasContentDisposition := true, contentLength? := some 5,
                delivered := 5 },
        confirm := none }
      "downloaded_files/file.pdf" "downloaded_files/file.pdf.part" (some 5)
      ⟨[("downloaded_files/file.pdf.part", 0)]⟩).trace.initialMode? = some .wb ∧
    ¬ (performDownloadAttempt
      { original_url := "u", file_id := "i", download_url := "d",
        filename_hint := "file", file_extension := ".pdf" }
      { get := fun _ =>
          .ok { status := 200, contentType := "application/pdf",
                hasContentDisposition := true, contentLength? := some 5,
                delivered := 5 },
        confirm := none }
      "downloaded_files/file.pdf" "downloaded_files/file.pdf.part" (some 5)
      ⟨[("downloaded_files/file.pdf.part", 0)]⟩).trace.rangeHeader
        = some ("bytes=" ++ toString 0 ++ "-") := by
  decide

/-- C4 witness: a 4-byte partial file with expected size 10 — the attempt
sends `Range: bytes=4-` and decides on append mode. -/
theorem c4_witness :
    (performDownloadAttempt
      { original_url := "u", file_id := "i", download_url := "d",
        filename_hint := "file", file_extension := ".pdf" }
      { get := fun _ =>
          .ok { status := 206, contentType := "application/pdf",
                hasContentDisposition := true, contentLength? := some 6,
                delivered := 6 },
        confirm := none }
      "downloaded_files/file.pdf" "downloaded_files/file.pdf.part" (some 10)
      ⟨[("downloaded_files/file.pdf.part", 4)]⟩).trace.rangeHeader
        = some ("bytes=" ++ toString 4 ++ "-") ∧
    (performDownloadAttempt
      { original_url := "u", file_id := "i", download_url := "d",
        filename_hint := "file", file_extension := ".pdf" }
      { get := fun _ =>
          .ok { status := 206, contentType := "application/pdf",
                hasContentDisposition := true, contentLength? := some 6,
                delivered := 6 },
        confirm := none }
      "downloaded_files/file.pdf" "downloaded_files/file.pdf.part" (some 10)
      ⟨[("downloaded_files/file.pdf.part", 4)]⟩).trace.initialMode? = some .ab :=
  c4_resume_range_semantics.1
    { original_url := "u", file_id := "i", download_url := "d",
      filename_hint := "file", file_extension := ".pdf" }
    { get := fun _ =>
        .ok { status := 206, contentType := "application/pdf",
              hasContentDisposition := true, contentLength? := some 6,
              delivered := 6 },
      confirm := none }
    "downloaded_files/file.pdf" "downloaded_files/file.pdf.part" 4 10
    ⟨[("downloaded_files/file.pdf.part", 4)]⟩
    (by decide) (by decide) (by decide) (by decide)

/-- One unfolding step of the retry loop. -/
theorem attemptLoop_step (task : DownloadTask) (envs : Nat → AttemptEnv)
    (fp pp : String) (t? : Option Nat) (fuel i : Nat) (fs : FS) :
    attemptLoop task envs fp pp t? (fuel + 1) i fs =
      match (performDownloadAttempt task (envs i) fp pp t? fs).result with
      | .ok r =>
        { out := .done r, fs := (performDownloadAttempt task (envs i) fp pp t? fs).fs,
          attemptsMade := i,
          lastTrace := (performDownloadAttempt task (envs i) fp pp t? fs).trace }
      | .error e =>
        if e.retryable then
          if i < RETRY_ATTEMPTS then
            attemptLoop task envs fp pp t? fuel (i + 1)
              (performDownloadAttempt task (envs i) fp pp t? fs).fs
          else
            { out := .exhausted e,
              fs := (performDownloadAttempt task (envs i) fp pp t? fs).fs,
              attemptsMade := i,
              lastTrace := (performDownloadAttempt task (envs i) fp pp t? fs).trace }
        else
          { out := .raised e,
            fs := (performDownloadAttempt task (envs i) fp pp t? fs).fs,
            attemptsMade := i,
            lastTrace := (performDownloadAttempt task (envs i) fp pp t? fs).trace } := by
  rfl

/-- C6: the retry policy retries only on the transient transport
exceptions of `RETRYABLE_EXCEPTIONS` — not on filesystem errors or
confirmation-bypass failures (which come back as results, stopping after
one attempt) and not on HTTP client errors (which propagate at once) — and
a transfer raising a retryable error on every attempt is tried exactly
`RETRY_ATTEMPTS` times, yielding a failure result whose message and error
reflect the last underlying exception. -/
theorem c6_retry_policy :
    (∀ (task : DownloadTask) (envs : Nat → AttemptEnv) (fp pp : String)
       (t? : Option Nat) (fs fs1 fs2 : FS) (e1 e2 e3 : PyExc),
       (performDownloadAttempt task (envs 1) fp pp t? fs).result = .error e1 →
       e1.retryable = true →
       (performDownloadAttempt task (envs 1) fp pp t? fs).fs = fs1 →
       (performDownloadAttempt task (envs 2) fp pp t? fs1).result = .error e2 →
       e2.retryable = true →
       (performDownloadAttempt task (envs 2) fp pp t? fs1).fs = fs2 →
       (performDownloadAttempt task (envs 3) fp pp t? fs2).result = .error e3 →
       e3.retryable = true →
       (executeWithRetries task envs fp pp t? fs).2.2 = RETRY_ATTEMPTS ∧
       (executeWithRetries task envs fp pp t? fs).1 =
         { original_url := task.original_url, success := false,
           message := "Failed after retries: " ++ e3.typeName, error := some e3 }) ∧
    (∀ (task : DownloadTask) (envs : Nat → AttemptEnv) (fp pp : String)
       (t? : Option Nat) (fs : FS) (e : PyExc),
       (performDownloadAttempt task (envs 1) fp pp t? fs).result = .error e →
       e.retryable = false →
       (executeWithRetries task envs fp pp t? fs).2.2 = 1 ∧
       (executeWithRetries task envs fp pp t? fs).1 =
         { original_url := task.original_url, success := false,
           message := "Failed: Unexpected orchestration error - " ++ e.typeName,
           error := some e }) ∧
    (∀ (task : DownloadTask) (envs : Nat → AttemptEnv) (fp pp : String)
       (t? : Option Nat) (fs : FS) (r : DownloadResult),
       (performDownloadAttempt task (envs 1) fp pp t? fs).result = .ok r →
       (executeWithRetries task envs fp pp t? fs).2.2 = 1 ∧
       (executeWithRetries task envs fp pp t? fs).1 = r) ∧
    (PyExc.timeout.retryable = true ∧
     (∀ msg, (PyExc.connectionError msg).retryable = true) ∧
     PyExc.chunkedEncodingError.retryable = true ∧
     (∀ st, (PyExc.httpError st).retryable = false) ∧
     (∀ msg, (PyExc.osError msg).retryable = false)) := by
  refine ⟨?_, ?_, ?_, rfl, fun _ => rfl, rfl, fun _ => rfl, fun _ => rfl⟩
  · intro task envs fp pp t? fs fs1 fs2 e1 e2 e3 h1 hr1 hf1 h2 hr2 hf2 h3 hr3
    have hloop : attemptLoop task envs fp pp t? 3 1 fs =
        { out := .exhausted e3,
          fs := (performDownloadAttempt task (envs 3) fp pp t? fs2).fs,
          attemptsMade := 3,
          lastTrace := (performDownloadAttempt task (envs 3) fp pp t? fs2).trace } := by
      show attemptLoop task envs fp pp t? (2 + 1) 1 fs = _
      rw [attemptLoop_step, h1]
      dsimp only
      rw [hr1, if_pos rfl, if_pos (show 1 < RETRY_ATTEMPTS by decide), hf1]
      show attemptLoop task envs fp pp t? (1 + 1) 2 fs1 = _
      rw [attemptLoop_step, h2]
      dsimp only
      rw [hr2, if_pos rfl, if_pos (show 2 < RETRY_ATTEMPTS by decide), hf2]
      show attemptLoop task envs fp pp t? (0 + 1) 3 fs2 = _
      rw [attemptLoop_step, h3]
      dsimp only
      rw [hr3, if_pos rfl, if_neg (show ¬ 3 < RETRY_ATTEMPTS by decide)]
    refine ⟨?_, ?_⟩ <;> simp [executeWithRetries, runAttempts, hloop, RETRY_ATTEMPTS]
  · intro task envs fp pp t? fs e h1 hr1
    have hloop : attemptLoop task envs fp pp t? 3 1 fs =
        { out := .raised e,
          fs := (performDownloadAttempt task (envs 1) fp pp t? fs).fs,
          attemptsMade := 1,
          lastTrace := (performDownloadAttempt task (envs 1) fp pp t? fs).trace } := by
      show attemptLoop task envs fp pp t? (2 + 1) 1 fs = _
      rw [attemptLoop_step, h1]
      dsimp only
      rw [hr1, if_neg (show ¬ false = true by decide)]
    refine ⟨?_, ?_⟩ <;> simp [executeWithRetries, runAttempts, hloop, RETRY_ATTEMPTS]
  · intro task envs fp pp t? fs r h1
    have hloop : attemptLoop task envs fp pp t? 3 1 fs =
        { out := .done r,
          fs := (performDownloadAttempt task (envs 1) fp pp t? fs).fs,
          attemptsMade := 1,
          lastTrace := (performDownloadAttempt task (envs 1) fp pp t? fs).trace } := by
      show attemptLoop task envs fp pp t? (2 + 1) 1 fs = _
      rw [attemptLoop_step, h1]
    refine ⟨?_, ?_⟩ <;> simp [executeWithRetries, runAttempts, hloop, RETRY_ATTEMPTS]

/-- C6 witness: a server timing out on every attempt is tried three times
and the transfer ends as a failure carrying the timeout. -/
theorem c6_witness :
    ((performDownloadAttempt
      { original_url := "u", file_id := "i", download_url := "d",
        filename_hint := "file", file_extension := ".pdf" }
      ((fun _ => ({ get := fun _ => .error .timeout, confirm := none } : AttemptEnv)) 1)
      "downloaded_files/file.pdf" "downloaded_files/file.pdf.part" (some 5)
      ⟨[]⟩).result = .error .timeout) ∧
    (executeWithRetries
      { original_url := "u", file_id := "i", download_url := "d",
        filename_hint := "file", file_extension := ".pdf" }
      (fun _ => { get := fun _ => .error .timeout, confirm := none })
      "downloaded_files/file.pdf" "downloaded_files/file.pdf.part" (some 5)
      ⟨[]⟩).2.2 = RETRY_ATTEMPTS ∧
    (executeWithRetries
      { original_url := "u", file_id := "i", download_url := "d",
        filename_hint := "file", file_extension := ".pdf" }
      (fun _ => { get := fun _ => .error .timeout, confirm := none })
      "downloaded_files/file.pdf" "downloaded_files/file.pdf.part" (some 5)
      ⟨[]⟩).1 =
      { original_url := "u", success := false,
        message := "Failed after retries: " ++ PyExc.typeName .timeout,
        error := some .timeout } :=
  ⟨by decide,
   c6_retry_policy.1
    { original_url := "u", file_id := "i", download_url := "d",
      filename_hint := "file", file_extension := ".pdf" }
    (fun _ => { get := fun _ => .error .timeout, confirm := none })
    "downloaded_files/file.pdf" "downloaded_files/file.pdf.part" (some 5)
    ⟨[]⟩ ⟨[]⟩ ⟨[]⟩ .timeout .timeout .timeout
    (by decide) (by decide) (by decide) (by decide) (by decide) (by decide)
    (by decide) (by decide)⟩

/-- C9: the orchestrator collection loop produces exactly one result per
task; an exception escaping a task's execution is converted into a failure
result for that task (carrying its URL) instead of propagating, so no
task's failure aborts the others. -/
theorem c9_one_result_per_task :
    (∀ (tasks : List DownloadTask) (exec : DownloadTask → Except PyExc DownloadResult),
       (collectResults tasks exec).length = tasks.length) ∧
    (∀ (tasks : List DownloadTask) (exec : DownloadTask → Except PyExc DownloadResult)
       (i : Nat),
       (collectResults tasks exec).get? i = (tasks.get? i).map (fun t =>
         match exec t with
         | .ok r => r
         | .error e =>
           { original_url := t.original_url, success := false,
             message := "Unhandled exception: " ++ e.typeName })) ∧
    (∀ (tasks : List DownloadTask) (exec : DownloadTask → Except PyExc DownloadResult)
       (i : Nat) (t : DownloadTask) (e : PyExc),
       tasks.get? i = some t → exec t = .error e →
       ∃ r, (collectResults tasks exec).get? i = some r ∧ r.success = false ∧
         r.original_url = t.original_url) := by
  refine ⟨?_, ?_, ?_⟩
  · intro tasks exec
    simp [collectResults]
  · intro tasks exec i
    simp [collectResults, List.get?_map]
  · intro tasks exec i t e hti hexec
    refine ⟨{ original_url := t.original_url, success := false,
              message := "Unhandled exception: " ++ e.typeName }, ?_, rfl, rfl⟩
    have hmap : (collectResults tasks exec).get? i
        = (tasks.get? i).map (fun t =>
            match exec t with
            | .ok r => r
            | .error e =>
              { original_url := t.original_url, success := false,
                message := "Unhandled exception: " ++ e.typeName }) := by
      simp [collectResults, List.get?_map]
    rw [hmap, hti]
    rw [show ∀ f : DownloadTask → DownloadResult, Option.map f (some t) = some (f t)
      from fun f => rfl]
    rw [hexec]

/-- C9 witness: a two-task batch with one raising execution yields two
results, the raising one converted to a failure. -/
theorem c9_witness :
    (collectResults
      [{ original_url := "a", file_id := "i", download_url := "d", filename_hint := "f" },
       { original_url := "b", file_id := "j", download_url := "e", filename_hint := "g" }]
      (fun t => if t.original_url = "a" then .error .timeout
                else .ok { original_url := t.original_url, success := true })).length = 2 ∧
    (∃ r, (collectResults
      [{ original_url := "a", file_id := "i", download_url := "d", filename_hint := "f" },
       { original_url := "b", file_id := "j", download_url := "e", filename_hint := "g" }]
      (fun t => if t.original_url = "a" then .error .timeout
                else .ok { original_url := t.original_url, success := true })).get? 0
        = some r ∧ r.success = false ∧ r.original_url = "a") :=
  ⟨c9_one_result_per_task.1
    [{ original_url := "a", file_id := "i", download_url := "d", filename_hint := "f" },
     { original_url := "b", file_id := "j", download_url := "e", filename_hint := "g" }]
    (fun t => if t.original_url = "a" then .error .timeout
              else .ok { original_url := t.original_url, success := true }),
   c9_one_result_per_task.2.2
    [{ original_url := "a", file_id := "i", download_url := "d", filename_hint := "f" },
     { original_url := "b", file_id := "j", download_url := "e", filename_hint := "g" }]
    (fun t => if t.original_url = "a" then .error .timeout
              else .ok { original_url := t.original_url, success := true })
    0 { original_url := "a", file_id := "i", download_url := "d", filename_hint := "f" }
    .timeout (by decide) (by decide)⟩

/-- C10: the HEAD probe reports an unknown size only when the HEAD request
itself fails (a raised exception or an error status caught by
`raise_for_status`); a successful HEAD without a `Content-Length` header
yields expected size 0, and then a pre-existing zero-byte file at the
proposed target path makes the task a skipped success with no attempt (and
hence no GET for the body) ever made. -/
theorem c10_head_zero_skip :
    (∀ e : PyExc, (getServerFileInfo (.error e)).1 = none) ∧
    (∀ h : HeadResp, (getServerFileInfo (.ok h)).1 = none → 400 ≤ h.status) ∧
    (∀ h : HeadResp, h.status < 400 →
       (getServerFileInfo (.ok h)).1 = some (h.contentLength?.getD 0)) ∧
    (∀ (task : DownloadTask) (env : DlEnv) (folder : String) (fs : FS) (h : HeadResp),
       env.head = .ok h → h.status < 400 → h.contentLength? = none →
       fs.lookup (pathJoin folder (initialProposed task h.suggestedFilename?)) = some 0 →
       (downloadFile task env folder fs).result.success = true ∧
       (downloadFile task env folder fs).result.message =
         "Skipped (0 byte file exists, server size 0/unknown): "
           ++ initialProposed task h.suggestedFilename? ∧
       (downloadFile task env folder fs).attemptsEntered = false ∧
       (downloadFile task env folder fs).attemptsMade = 0 ∧
       (downloadFile task env folder fs).fs = fs) := by
  refine ⟨fun e => rfl, ?_, ?_, ?_⟩
  · intro h hnone
    by_contra hlt
    rw [show getServerFileInfo (.ok h)
        = (some (h.contentLength?.getD 0), h.suggestedFilename?) from by
      simp [getServerFileInfo, hlt]] at hnone
    cases hnone
  · intro h hst
    simp [getServerFileInfo, Nat.not_le.mpr hst]
  · intro task env folder fs h hhead hst hcl hlook
    have hinfo : getServerFileInfo env.head = (some 0, h.suggestedFilename?) := by
      rw [hhead]
      simp [getServerFileInfo, Nat.not_le.mpr hst, hcl]
    have hhasi : fs.hasFile
        (pathJoin folder (initialProposed task h.suggestedFilename?)) = true := by
      simp [FS.hasFile, hlook]
    have hsizei : fs.getsize
        (pathJoin folder (initialProposed task h.suggestedFilename?)) = 0 := by
      simp [FS.getsize, hlook]
    simp only [downloadFile, hinfo, CHECK_EXISTING_SIZE_BEFORE_DOWNLOAD, Bool.true_and,
      hhasi, if_true, Nat.lt_irrefl, if_false, hsizei, if_pos rfl]
    refine ⟨?_, ?_, ?_, ?_, ?_⟩ <;> trivial

/-- C10 witness: a successful HEAD carrying no `Content-Length`, with a
zero-byte file already at the proposed path, yields a skipped success with
zero attempts. -/
theorem c10_witness :
    (downloadFile
      { original_url := "u", file_id := "i", download_url := "d",
        filename_hint := "file", file_extension := ".pdf" }
      { head := .ok { status := 200, contentLength? := none,
                      suggestedFilename? := some "file.pdf" },
        attempts := fun _ => { get := fun _ => .error .timeout, confirm := none } }
      "downloaded_files"
      ⟨[("downloaded_files/file.pdf", 0)]⟩).result.success = true ∧
    (downloadFile
      { original_url := "u", file_id := "i", download_url := "d",
        filename_hint := "file", file_extension := ".pdf" }
      { head := .ok { status := 200, contentLength? := none,
                      suggestedFilename? := some "file.pdf" },
        attempts := fun _ => { get := fun _ => .error .timeout, confirm := none } }
      "downloaded_files"
      ⟨[("downloaded_files/file.pdf", 0)]⟩).result.message =
      "Skipped (0 byte file exists, server size 0/unknown): "
        ++ initialProposed
          { original_url := "u", file_id := "i", download_url := "d",
            filename_hint := "file", file_extension := ".pdf" }
          (some "file.pdf") ∧
    (downloadFile
      { original_url := "u", file_id := "i", download_url := "d",
        filename_hint := "file", file_extension := ".pdf" }
      { head := .ok { status := 200, contentLength? := none,
                      suggestedFilename? := some "file.pdf" },
        attempts := fun _ => { get := fun _ => .error .timeout, confirm := none } }
      "downloaded_files"
      ⟨[("downloaded_files/file.pdf", 0)]⟩).attemptsEntered = false ∧
    (downloadFile
      { original_url := "u", file_id := "i", download_url := "d",
        filename_hint := "file", file_extension := ".pdf" }
      { head := .ok { status := 200, contentLength? := none,
                      suggestedFilename? := some "file.pdf" },
        attempts := fun _ => { get := fun _ => .error .timeout, confirm := none } }
      "downloaded_files"
      ⟨[("downloaded_files/file.pdf", 0)]⟩).attemptsMade = 0 ∧
    (downloadFile
      { original_url := "u", file_id := "i", download_url := "d",
        filename_hint := "file", file_extension := ".pdf" }
      { head := .ok { status := 200, contentLength? := none,
                      suggestedFilename? := some "file.pdf" },
        attempts := fun _ => { get := fun _ => .error .timeout, confirm := none } }
      "downloaded_files"
      ⟨[("downloaded_files/file.pdf", 0)]⟩).fs = ⟨[("downloaded_files/file.pdf", 0)]⟩ :=
  c10_head_zero_skip.2.2.2
    { original_url := "u", file_id := "i", download_url := "d",
      filename_hint := "file", file_extension := ".pdf" }
    { head := .ok { status := 200, contentLength? := none,
                    suggestedFilename? := some "file.pdf" },
      attempts := fun _ => { get := fun _ => .error .timeout, confirm := none } }
    "downloaded_files" ⟨[("downloaded_files/file.pdf", 0)]⟩
    { status := 200, contentLength? := none, suggestedFilename? := some "file.pdf" }
    rfl (by decide) (by decide) (by decide)

/-! ## Filename-resolution lemmas for the collision claim -/

theorem splitext_append (s : String) : (splitext s).1 ++ (splitext s).2 = s := by
  unfold splitext
  cases h : splitextIdx s.toList with
  | none =>
    show s ++ "" = s
    cases s with
    | mk data =>
      show String.mk (data ++ []) = String.mk data
      rw [List.append_nil]
  | some j =>
    show String.mk (s.toList.take j ++ s.toList.drop j) = s
    rw [List.take_append_drop]
    rfl

theorem candidateName_length_gt (np ext : String) (k : Nat) :
    np.length + ext.length < (candidateName np ext k).length := by
  simp only [candidateName, String.length_append]
  have h1 : ("_" : String).length = 1 := rfl
  omega

theorem determineGo_is_candidate (folder np ext : String) (fs : FS) :
    ∀ fuel k, ∃ j, determineGo folder np ext fs fuel k = candidateName np ext j := by
  intro fuel
  induction fuel with
  | zero => intro k; exact ⟨k, rfl⟩
  | succ fuel ih =>
    intro k
    simp only [determineGo]
    split
    · exact ih (k + 1)
    · exact ⟨k, rfl⟩

theorem determine_longer (folder initialName : String) (fs : FS)
    (hex : fs.hasFile (pathJoin folder initialName) = true) :
    initialName.length < ((determineActualFinalFilename folder initialName fs).1).length := by
  simp only [determineActualFinalFilename, hex, if_true]
  obtain ⟨j, hj⟩ := determineGo_is_candidate folder (splitext initialName).1
    (splitext initialName).2 fs (fs.files.length + 1) 1
  rw [hj]
  have hlen : (splitext initialName).1.length + (splitext initialName).2.length
      = initialName.length := by
    rw [← String.length_append, splitext_append]
  have hgt := candidateName_length_gt (splitext initialName).1 (splitext initialName).2 j
  omega

theorem pathJoin_length (folder name : String) :
    (pathJoin folder name).length = folder.length + 1 + name.length := by
  simp only [pathJoin, String.length_append]
  rfl

/-- The retry loop only ever touches the final and partial paths. -/
theorem attemptLoop_preserves (task : DownloadTask) (envs : Nat → AttemptEnv)
    (fp pp : String) (t? : Option Nat) (q : String)
    (h1 : q ≠ fp) (h2 : q ≠ pp) :
    ∀ fuel i fsx, (attemptLoop task envs fp pp t? fuel i fsx).fs.lookup q
      = fsx.lookup q := by
  intro fuel
  induction fuel with
  | zero => intro i fsx; rfl
  | succ fuel ih =>
    intro i fsx
    rw [attemptLoop_step]
    split
    · exact attempt_preserves task (envs i) fp pp t? fsx q h1 h2
    · split
      · split
        · rw [ih]
          exact attempt_preserves task (envs i) fp pp t? fsx q h1 h2
        · exact attempt_preserves task (envs i) fp pp t? fsx q h1 h2
      · exact attempt_preserves task (envs i) fp pp t? fsx q h1 h2

theorem executeWithRetries_fs (task : DownloadTask) (envs : Nat → AttemptEnv)
    (fp pp : String) (t? : Option Nat) (fs : FS) :
    (executeWithRetries task envs fp pp t? fs).2.1
      = (runAttempts task envs fp pp t? fs).fs := by
  simp only [executeWithRetries]
  split <;> rfl

theorem executeWithRetries_preserves (task : DownloadTask) (envs : Nat → AttemptEnv)
    (fp pp : String) (t? : Option Nat) (fs : FS) (q : String)
    (h1 : q ≠ fp) (h2 : q ≠ pp) :
    (executeWithRetries task envs fp pp t? fs).2.1.lookup q = fs.lookup q := by
  rw [executeWithRetries_fs]
  exact attemptLoop_preserves task envs fp pp t? q h1 h2 RETRY_ATTEMPTS 1 fs

/-- C2 counterexample: `file.pdf` exists with 5 bytes while the server
reports 10; the engine does not remove the mismatched file and re-download
to the same path — it leaves `file.pdf` untouched at 5 bytes and downloads
to the suffixed `file_1.pdf`. -/
theorem c2_counterexample :
    (downloadFile
      { original_url := "u", file_id := "i", download_url := "d",
        filename_hint := "file", file_extension := ".pdf" }
      { head := .ok { status := 200, contentLength? := some 10,
                      suggestedFilename? := some "file.pdf" },
        attempts := fun _ =>
          { get := fun _ =>
              .ok { status := 200, contentType := "application/pdf",
                    hasContentDisposition := true, contentLength? := some 10,
                    delivered := 10 },
            confirm := none } }
      "downloaded_files" ⟨[("downloaded_files/file.pdf", 5)]⟩).result.success = true ∧
    (downloadFile
      { original_url := "u", file_id := "i", download_url := "d",
        filename_hint := "file", file_extension := ".pdf" }
      { head := .ok { status := 200, contentLength? := some 10,
                      suggestedFilename? := some "file.pdf" },
        attempts := fun _ =>
          { get := fun _ =>
              .ok { status := 200, contentType := "application/pdf",
                    hasContentDisposition := true, contentLength? := some 10,
                    delivered := 10 },
            confirm := none } }
      "downloaded_files" ⟨[("downloaded_files/file.pdf", 5)]⟩).result.filepath =
      some "downloaded_files/file_1.pdf" ∧
    (downloadFile
      { original_url := "u", file_id := "i", download_url := "d",
        filename_hint := "file", file_extension := ".pdf" }
      { head := .ok { status := 200, contentLength? := some 10,
                      suggestedFilename? := some "file.pdf" },
        attempts := fun _ =>
          { get := fun _ =>
              .ok { status := 200, contentType := "application/pdf",
                    hasContentDisposition := true, contentLength? := some 10,
                    delivered := 10 },
            confirm := none } }
      "downloaded_files" ⟨[("downloaded_files/file.pdf", 5)]⟩).fs.lookup
        "downloaded_files/file.pdf" = some 5 ∧
    ¬ (downloadFile
      { original_url := "u", file_id := "i", download_url := "d",
        filename_hint := "file", file_extension := ".pdf" }
      { head := .ok { status := 200, contentLength? := some 10,
                      suggestedFilename? := some "file.pdf" },
        attempts := fun _ =>
          { get := fun _ =>
              .ok { status := 200, contentType := "application/pdf",
                    hasContentDisposition := true, contentLength? := some 10,
                    delivered := 10 },
            confirm := none } }
      "downloaded_files" ⟨[("downloaded_files/file.pdf", 5)]⟩).targetPath =
      (downloadFile
      { original_url := "u", file_id := "i", download_url := "d",
        filename_hint := "file", file_extension := ".pdf" }
      { head := .ok { status := 200, contentLength? := some 10,
                      suggestedFilename? := some "file.pdf" },
        attempts := fun _ =>
          { get := fun _ =>
              .ok { status := 200, contentType := "application/pdf",
                    hasContentDisposition := true, contentLength? := some 10,
                    delivered := 10 },
            confirm := none } }
      "downloaded_files" ⟨[("downloaded_files/file.pdf", 5)]⟩).initialPath := by
  decide

/-- C2 (amended): when the proposed target path exists with a size
mismatching the known positive expected size, the engine does NOT remove
the existing file: the uniqueness loop, run while the file still exists,
diverts the download to a longer suffixed path, the removal branch never
fires, and the mismatched file survives untouched. -/
theorem c2_mismatch_keeps_file (task : DownloadTask) (env : DlEnv)
    (folder : String) (fs : FS) (nn : Nat)
    (htotal : (getServerFileInfo env.head).1 = some nn) (hnn : 0 < nn)
    (hex : fs.hasFile
      (pathJoin folder (initialProposed task (getServerFileInfo env.head).2)) = true)
    (hmis : fs.getsize
      (pathJoin folder (initialProposed task (getServerFileInfo env.head).2)) ≠ nn) :
    (downloadFile task env folder fs).initialPath
      = pathJoin folder (initialProposed task (getServerFileInfo env.head).2) ∧
    (downloadFile task env folder fs).targetPath
      ≠ (downloadFile task env folder fs).initialPath ∧
    (downloadFile task env folder fs).fs.lookup
      (pathJoin folder (initialProposed task (getServerFileInfo env.head).2))
      = fs.lookup
        (pathJoin folder (initialProposed task (getServerFileInfo env.head).2)) := by
  have hlonger := determine_longer folder
    (initialProposed task (getServerFileInfo env.head).2) fs hex
  have happath : (determineActualFinalFilename folder
      (initialProposed task (getServerFileInfo env.head).2) fs).2
      = pathJoin folder (determineActualFinalFilename folder
        (initialProposed task (getServerFileInfo env.head).2) fs).1 := by
    simp only [determineActualFinalFilename]
  have hlen1 : (pathJoin folder
      (initialProposed task (getServerFileInfo env.head).2)).length
      < ((determineActualFinalFilename folder
          (initialProposed task (getServerFileInfo env.head).2) fs).2).length := by
    rw [happath, pathJoin_length, pathJoin_length]
    omega
  have hnea : (determineActualFinalFilename folder
      (initialProposed task (getServerFileInfo env.head).2) fs).2
      ≠ pathJoin folder (initialProposed task (getServerFileInfo env.head).2) := by
    intro he
    rw [he] at hlen1
    omega
  have hnep : (pathJoin folder (initialProposed task (getServerFileInfo env.head).2))
      ≠ (determineActualFinalFilename folder
          (initialProposed task (getServerFileInfo env.head).2) fs).2 ++ ".part" := by
    intro he
    have : ((determineActualFinalFilename folder
        (initialProposed task (getServerFileInfo env.head).2) fs).2 ++ ".part").length
        = ((determineActualFinalFilename folder
            (initialProposed task (getServerFileInfo env.head).2) fs).2).length + 5 := by
      rw [String.length_append]
      rfl
    rw [← he] at this
    omega
  simp only [downloadFile, htotal, CHECK_EXISTING_SIZE_BEFORE_DOWNLOAD, Bool.true_and,
    hex, if_true, if_pos hnn, if_neg hmis]
  refine ⟨trivial, hnea, ?_⟩
  rw [if_neg (fun hcon => by
    rw [decide_eq_false hnea] at hcon
    simp at hcon)]
  exact executeWithRetries_preserves task env.attempts _ _ (some nn) fs _
    (fun hq => hnea hq.symm) hnep

/-- C2 witness: the counterexample scenario discharges the amended claim's
hypotheses — the mismatched 5-byte file survives and the target path is
the suffixed one. -/
theorem c2_witness :
    (downloadFile
      { original_url := "u", file_id := "i", download_url := "d",
        filename_hint := "file", file_extension := ".pdf" }
      { head := .ok { status := 200, contentLength? := some 10,
                      suggestedFilename? := some "file.pdf" },
        attempts := fun _ =>
          { get := fun _ =>
              .ok { status := 200, contentType := "application/pdf",
                    hasContentDisposition := true, contentLength? := some 10,
                    delivered := 10 },
            confirm := none } }
      "downloaded_files" ⟨[("downloaded_files/file.pdf", 5)]⟩).initialPath
      = pathJoin "downloaded_files"
        (initialProposed
          { original_url := "u", file_id := "i", download_url := "d",
            filename_hint := "file", file_extension := ".pdf" }
          (getServerFileInfo
            (.ok { status := 200, contentLength? := some 10,
                   suggestedFilename? := some "file.pdf" })).2) ∧
    (downloadFile
      { original_url := "u", file_id := "i", download_url := "d",
        filename_hint := "file", file_extension := ".pdf" }
      { head := .ok { status := 200, contentLength? := some 10,
                      suggestedFilename? := some "file.pdf" },
        attempts := fun _ =>
          { get := fun _ =>
              .ok { status := 200, contentType := "application/pdf",
                    hasContentDisposition := true, contentLength? := some 10,
                    delivered := 10 },
            confirm := none } }
      "downloaded_files" ⟨[("downloaded_files/file.pdf", 5)]⟩).targetPath
      ≠ (downloadFile
      { original_url := "u", file_id := "i", download_url := "d",
        filename_hint := "file", file_extension := ".pdf" }
      { head := .ok { status := 200, contentLength? := some 10,
                      suggestedFilename? := some "file.pdf" },
        attempts := fun _ =>
          { get := fun _ =>
              .ok { status := 200, contentType := "application/pdf",
                    hasContentDisposition := true, contentLength? := some 10,
                    delivered := 10 },
            confirm := none } }
      "downloaded_files" ⟨[("downloaded_files/file.pdf", 5)]⟩).initialPath ∧
    (downloadFile
      { original_url := "u", file_id := "i", download_url := "d",
        filename_hint := "file", file_extension := ".pdf" }
      { head := .ok { status := 200, contentLength? := some 10,
                      suggestedFilename? := some "file.pdf" },
        attempts := fun _ =>
          { get := fun _ =>
              .ok { status := 200, contentType := "application/pdf",
                    hasContentDisposition := true, contentLength? := some 10,
                    delivered := 10 },
            confirm := none } }
      "downloaded_files" ⟨[("downloaded_files/file.pdf", 5)]⟩).fs.lookup
      (pathJoin "downloaded_files"
        (initialProposed
          { original_url := "u", file_id := "i", download_url := "d",
            filename_hint := "file", file_extension := ".pdf" }
          (getServerFileInfo
            (.ok { status := 200, contentLength? := some 10,
                   suggestedFilename? := some "file.pdf" })).2))
      = FS.lookup ⟨[("downloaded_files/file.pdf", 5)]⟩
        (pathJoin "downloaded_files"
          (initialProposed
            { original_url := "u", file_id := "i", download_url := "d",
              filename_hint := "file", file_extension := ".pdf" }
            (getServerFileInfo
              (.ok { status := 200, contentLength? := some 10,
                     suggestedFilename? := some "file.pdf" })).2)) :=
  c2_mismatch_keeps_file
    { original_url := "u", file_id := "i", download_url := "d",
      filename_hint := "file", file_extension := ".pdf" }
    { head := .ok { status := 200, contentLength? := some 10,
                    suggestedFilename? := some "file.pdf" },
      attempts := fun _ =>
        { get := fun _ =>
            .ok { status := 200, contentType := "application/pdf",
                  hasContentDisposition := true, contentLength? := some 10,
                  delivered := 10 },
          confirm := none } }
    "downloaded_files" ⟨[("downloaded_files/file.pdf", 5)]⟩ 10
    (by decide) (by decide) (by decide) (by decide)

end GDD
